import Mathlib

/-!
# Compositor layers (OculusVRLayers.cpp) and the Pico device delegate (DeviceDelegatePicoVR.cpp)

A shallow embedding of the two translation units and the properties checked against them.

Conventions of the embedding:

* `float` values are carried as exact rationals; the properties below only copy, compare
  and halve them.
* a raw pointer or a `shared_ptr` is an `Option`, `nullptr` being `none`; dereferencing
  `nullptr` and indexing outside an array make the embedded function return `none`.
* a `weak_ptr` is what `lock()` yields at the time of the call: `none` once the owner is gone.
* calls on the controller delegate are recorded, in order, in the list held by the state.
* functions of the vrb and VrApi libraries and of the elbow model are arguments of the
  embedding (`Externals`, `Collaborators`) unless stated otherwise at their definition.
-/

namespace vrb

/-- Three float components of vrb::Vector. -/
structure Vector where
  x : ℚ
  y : ℚ
  z : ℚ
deriving DecidableEq

/-- Component-wise difference: vrb::Vector::operator-. -/
instance : Sub Vector := ⟨fun a b => ⟨a.x - b.x, a.y - b.y, a.z - b.z⟩⟩

/-- Four float components of vrb::Quaternion. -/
structure Quaternion where
  x : ℚ
  y : ℚ
  z : ℚ
  w : ℚ
deriving DecidableEq

/-- A vrb::Matrix is a 4x4 table of floats addressed by two indices in 0..3. -/
structure Matrix where
  m : Fin 4 → Fin 4 → ℚ
deriving DecidableEq

/-- Accessor vrb::Matrix::At with both indices in range; the arguments are passed in the
order the source passes them. -/
def Matrix.At (a : Matrix) (i j : Fin 4) : ℚ := a.m i j

/-- Modelled from the spec: vrb::Matrix::Identity (vrb library, not under src/), the matrix
with ones on the diagonal and zeros elsewhere. -/
def Matrix.Identity : Matrix := ⟨fun i j => if i = j then 1 else 0⟩

/-- Modelled from the spec: vrb::Matrix::ScaleInPlace (vrb library, not under src/). Section
4.2 describes the scaled identity as diag(x, y, 1): the three leading diagonal cells are
multiplied by the components of the vector. -/
def Matrix.ScaleInPlace (a : Matrix) (s : Vector) : Matrix :=
  ⟨fun i j =>
    if i = j then
      (if i = 0 then a.m i j * s.x else if i = 1 then a.m i j * s.y
       else if i = 2 then a.m i j * s.z else a.m i j)
    else a.m i j⟩

end vrb

namespace crow

/-- A pointer to an ovrTextureSwapChain: a handle, or nullptr. -/
abbrev SwapChainPtr := Option Nat

namespace device

/-- The enum device::Eye. -/
inductive Eye where
  | Left
  | Right
deriving DecidableEq

/-- The struct device::EyeRect (Device.h): a texture sub-rectangle. -/
structure EyeRect where
  mX : ℚ
  mY : ℚ
  mWidth : ℚ
  mHeight : ℚ
deriving DecidableEq

/-- Modelled from the spec: device::EyeRect::IsDefault (Device.h, not under src/). Section 8:
the default is the full-extent rect with x 0, y 0, width 1, height 1. -/
def EyeRect.IsDefault (r : EyeRect) : Bool :=
  r.mX == 0 && r.mY == 0 && r.mWidth == 1 && r.mHeight == 1

end device

/-- The compositor matrix ovrMatrix4f, float M[4][4]. -/
structure ovrMatrix4f where
  M : Fin 4 → Fin 4 → ℚ
deriving DecidableEq

/-- The assignment m.M[row][col] = v. -/
def ovrMatrix4f.set (m : ovrMatrix4f) (row col : Fin 4) (v : ℚ) : ovrMatrix4f :=
  ⟨fun r c => if r = row ∧ c = col then v else m.M r c⟩

/-- Row index i / 4 of the loop of ovrMatrixFrom. -/
def rowOf (i : Fin 16) : Fin 4 := ⟨i.val / 4, by omega⟩

/-- Column index i % 4 of the loop of ovrMatrixFrom. -/
def colOf (i : Fin 16) : Fin 4 := ⟨i.val % 4, by omega⟩

/-- The flat loop index that addresses cell (row, col): 4 * row + col. -/
def flatIndex (row col : Fin 4) : Fin 16 := ⟨4 * row.val + col.val, by omega⟩

/-- One iteration of the loop of ovrMatrixFrom. -/
def ovrMatrixFromStep (aMatrix : vrb.Matrix) (m : ovrMatrix4f) (i : Fin 16) : ovrMatrix4f :=
  let row := rowOf i
  let col := colOf i
  m.set row col (aMatrix.At col row)

/-- The loop of ovrMatrixFrom, i = 0..15, run on the local m. -/
def ovrMatrixFromLoop (aMatrix : vrb.Matrix) (m : ovrMatrix4f) : ovrMatrix4f :=
  (List.finRange 16).foldl (ovrMatrixFromStep aMatrix) m

/-- The function ovrMatrixFrom. The source declares the local m without initialising it; the
loop is started here from the zero table. -/
def ovrMatrixFrom (aMatrix : vrb.Matrix) : ovrMatrix4f :=
  ovrMatrixFromLoop aMatrix ⟨fun _ _ => 0⟩

/-- The compositor matrix read back as a vrb::Matrix, cell for cell. -/
def asMatrix (m : ovrMatrix4f) : vrb.Matrix := ⟨m.M⟩

/-- The struct ovrRectf of VrApi. -/
structure ovrRectf where
  x : ℚ
  y : ℚ
  width : ℚ
  height : ℚ
deriving DecidableEq

/-- The struct ovrQuatf of VrApi. -/
structure ovrQuatf where
  x : ℚ
  y : ℚ
  z : ℚ
  w : ℚ
deriving DecidableEq

/-- The struct ovrVector3f of VrApi. -/
structure ovrVector3f where
  x : ℚ
  y : ℚ
  z : ℚ
deriving DecidableEq

/-- The struct ovrPosef of VrApi. -/
structure ovrPosef where
  Orientation : ovrQuatf
  Position : ovrVector3f
deriving DecidableEq

/-- The struct ovrRigidBodyPosef of VrApi; of its members only Pose is read or written by the
embedded code, the others travel with the struct when it is copied. -/
structure ovrRigidBodyPosef where
  Pose : ovrPosef
deriving DecidableEq

/-- The struct ovrTracking2 of VrApi, of which the layers read HeadPose. -/
structure ovrTracking2 where
  HeadPose : ovrRigidBodyPosef
deriving DecidableEq

/-- One entry of ovrLayer.Textures, with the members the layers write. -/
structure OvrTexture where
  ColorSwapChain : SwapChainPtr
  SwapChainIndex : Int
  TexCoordsFromTanAngles : ovrMatrix4f
  TextureRect : ovrRectf
  TextureMatrix : ovrMatrix4f
deriving DecidableEq

/-- VRAPI_FRAME_LAYER_EYE_MAX of VrApi: one texture entry per eye. -/
abbrev VRAPI_FRAME_LAYER_EYE_MAX : Nat := 2

/-- The compositor layer struct (ovrLayerProjection2, ovrLayerEquirect2), with the members the
layers write. -/
structure OvrLayer where
  HeadPose : ovrRigidBodyPosef
  TexCoordsFromTanAngles : ovrMatrix4f
  Textures : Fin VRAPI_FRAME_LAYER_EYE_MAX → OvrTexture
deriving DecidableEq

/-- The application layer descriptor (VRLayerQuad, VRLayerCube, VRLayerEquirect) as seen
through the getters and setters the layers call. -/
structure VRLayer where
  drawRequested : Bool
  loaded : Bool
  textureHandle : Nat
  worldWidth : ℚ
  worldHeight : ℚ
  view : device.Eye → vrb.Matrix
  modelTransform : device.Eye → vrb.Matrix
  uvTransform : device.Eye → vrb.Matrix
  textureRect : device.Eye → device.EyeRect

/-- Library functions called by the layers: vrb::Matrix::PostMultiply, GetScale and
GetTranslation, the vrb::Quaternion constructor from a matrix, and of VrApi
ovrMatrix4f_TanAngleMatrixFromUnitSquare, ovrMatrix4f_CreateIdentity and
vrapi_DefaultLayerEquirect2. -/
structure Externals where
  PostMultiply : vrb.Matrix → vrb.Matrix → vrb.Matrix
  GetScale : vrb.Matrix → vrb.Vector
  GetTranslation : vrb.Matrix → vrb.Vector
  QuaternionFromMatrix : vrb.Matrix → vrb.Quaternion
  TanAngleMatrixFromUnitSquare : ovrMatrix4f → ovrMatrix4f
  CreateIdentity : ovrMatrix4f
  DefaultLayerEquirect2 : OvrLayer

/-- The members of the class template OculusLayerBase (OculusVRLayers.h): the swap-chain, the
composited flag, the descriptor and the compositor struct; clipEnabled is the value last
given to SetClipEnabled and released lists the swap-chains handed back to the compositor. -/
structure OculusLayerBase where
  swapChain : SwapChainPtr
  composited : Bool
  layer : VRLayer
  ovrLayer : OvrLayer
  clipEnabled : Bool
  released : List Nat

namespace OculusLayerBase

/-- Modelled from the spec: OculusLayerBase::Init (OculusVRLayers.h, not under src/). The
spec gives the shared initialisation no effect on the members kept in this model. -/
def Init (self : OculusLayerBase) : OculusLayerBase := self

/-- Modelled from the spec: OculusLayerBase::Update (OculusVRLayers.h, not under src/). The
spec gives the shared per-frame update no effect on the members kept in this model. -/
def Update (self : OculusLayerBase) (_aTracking : ovrTracking2)
    (_aClearSwapChain : SwapChainPtr) : OculusLayerBase := self

/-- Modelled from the spec: OculusLayerBase::Destroy (OculusVRLayers.h, not under src/).
Section 4.1: destroy releases the swap-chain and is a no-op on an already destroyed or
never created handle. -/
def Destroy (self : OculusLayerBase) : OculusLayerBase :=
  match self.swapChain with
  | none => self
  | some sc => { self with swapChain := none, released := self.released ++ [sc] }

/-- Modelled from the spec: OculusLayerBase::GetTargetSwapChain (OculusVRLayers.h, not under
src/). Section 4.2: the fallback swap-chain is substituted when the own swap-chain of the
variant is unavailable. -/
def GetTargetSwapChain (self : OculusLayerBase) (aClearSwapChain : SwapChainPtr) :
    SwapChainPtr :=
  match self.swapChain with
  | none => aClearSwapChain
  | some sc => some sc

/-- Modelled from the spec: OculusLayerBase::SetClipEnabled (OculusVRLayers.h, not under
src/): records the clip flag of the frame. -/
def SetClipEnabled (self : OculusLayerBase) (aEnabled : Bool) : OculusLayerBase :=
  { self with clipEnabled := aEnabled }

/-- The assignment ovrLayer.Textures[i] = t. -/
def setTexture (self : OculusLayerBase) (i : Fin VRAPI_FRAME_LAYER_EYE_MAX) (t : OvrTexture) :
    OculusLayerBase :=
  { self with ovrLayer := { self.ovrLayer with
      Textures := fun k => if k = i then t else self.ovrLayer.Textures k } }

end OculusLayerBase

namespace OculusLayerSurface

/-- Modelled from the spec: OculusLayerSurface::Update (OculusVRLayers.h, not under src/),
the shared update of the Quad and Cylinder variants. -/
def Update (self : OculusLayerBase) (aTracking : ovrTracking2)
    (aClearSwapChain : SwapChainPtr) : OculusLayerBase :=
  OculusLayerBase.Update self aTracking aClearSwapChain

/-- Modelled from the spec: OculusLayerSurface::Destroy (OculusVRLayers.h, not under src/),
the destroy of the Quad and Cylinder variants: it releases the owned swap-chain and is
idempotent. -/
def Destroy (self : OculusLayerBase) : OculusLayerBase :=
  OculusLayerBase.Destroy self

end OculusLayerSurface

/-- The eye of loop index i: i == 0 ? device::Eye::Left : device::Eye::Right. -/
def eyeOf (i : Fin VRAPI_FRAME_LAYER_EYE_MAX) : device.Eye :=
  if i = 0 then device.Eye.Left else device.Eye.Right

namespace OculusLayerQuad

/-- The matrix scale of OculusLayerQuad::Update, built before the loop over the eyes. -/
def scaleMatrix (w h : ℚ) : vrb.Matrix :=
  vrb.Matrix.Identity.ScaleInPlace ⟨w * 0.5, h * 0.5, 1.0⟩

/-- The local matrix of the loop of OculusLayerQuad::Update for one eye, after
PostMultiplyInPlace(scale). -/
def eyeMatrix (ext : Externals) (layer : VRLayer) (scale : vrb.Matrix) (eye : device.Eye) :
    vrb.Matrix :=
  let matrix := ext.PostMultiply (layer.view eye) (layer.modelTransform eye)
  ext.PostMultiply matrix scale

/-- One iteration of the loop of OculusLayerQuad::Update; the state is the layer and the
local clip. -/
def UpdateEye (ext : Externals) (scale : vrb.Matrix) (aClearSwapChain : SwapChainPtr)
    (acc : OculusLayerBase × Bool) (i : Fin VRAPI_FRAME_LAYER_EYE_MAX) :
    OculusLayerBase × Bool :=
  let self := acc.1
  let clip := acc.2
  let eye := eyeOf i
  let matrix := eyeMatrix ext self.layer scale eye
  let modelView := ovrMatrixFrom matrix
  let textureRect := self.layer.textureRect eye
  let t := self.ovrLayer.Textures i
  let t := { t with ColorSwapChain := self.GetTargetSwapChain aClearSwapChain }
  let t := { t with SwapChainIndex := 0 }
  let t := { t with TexCoordsFromTanAngles := ext.TanAngleMatrixFromUnitSquare modelView }
  let t := { t with TextureRect :=
    ⟨textureRect.mX, textureRect.mY, textureRect.mWidth, textureRect.mHeight⟩ }
  (self.setTexture i t, clip || !textureRect.IsDefault)

/-- The method OculusLayerQuad::Update. -/
def Update (ext : Externals) (self : OculusLayerBase) (aTracking : ovrTracking2)
    (aClearSwapChain : SwapChainPtr) : OculusLayerBase :=
  let self := OculusLayerSurface.Update self aTracking aClearSwapChain
  let w := self.layer.worldWidth
  let h := self.layer.worldHeight
  let scale := scaleMatrix w h
  let clip := false
  let acc := (List.finRange VRAPI_FRAME_LAYER_EYE_MAX).foldl
    (UpdateEye ext scale aClearSwapChain) (self, clip)
  let self := acc.1.SetClipEnabled acc.2
  { self with ovrLayer := { self.ovrLayer with HeadPose := aTracking.HeadPose } }

end OculusLayerQuad

namespace OculusLayerCube

/-- The method OculusLayerCube::Destroy. -/
def Destroy (self : OculusLayerBase) : OculusLayerBase :=
  if self.swapChain = none then
    self
  else
    let self := { self with layer := { self.layer with textureHandle := 0 } }
    let self := { self with layer := { self.layer with loaded := false } }
    OculusLayerBase.Destroy self

/-- The method OculusLayerCube::IsLoaded. -/
def IsLoaded (self : OculusLayerBase) : Bool := self.layer.loaded

end OculusLayerCube

/-- What the equirect layer sees of its source layer through OculusLayer::GetSwapChain and
OculusLayer::IsComposited. -/
structure SourceLayer where
  GetSwapChain : SwapChainPtr
  IsComposited : Bool
deriving DecidableEq

/-- The class OculusLayerEquirect: the base members and the weak reference sourceLayer, held
as what lock() yields. -/
structure OculusLayerEquirect extends OculusLayerBase where
  sourceLayer : Option SourceLayer

namespace OculusLayerEquirect

/-- The method OculusLayerEquirect::Init. -/
def Init (ext : Externals) (self : OculusLayerEquirect) : OculusLayerEquirect :=
  match self.sourceLayer with
  | none => self
  | some source =>
    let self := { self with swapChain := source.GetSwapChain }
    let self := { self with ovrLayer := ext.DefaultLayerEquirect2 }
    let self := { self with ovrLayer := { self.ovrLayer with
      HeadPose := ⟨⟨⟨0.0, 0.0, 0.0, 1.0⟩, ⟨0.0, 0.0, 0.0⟩⟩⟩ } }
    let self := { self with ovrLayer := { self.ovrLayer with
      TexCoordsFromTanAngles := ext.CreateIdentity } }
    { self with toOculusLayerBase := OculusLayerBase.Init self.toOculusLayerBase }

/-- The method OculusLayerEquirect::Destroy. -/
def Destroy (self : OculusLayerEquirect) : OculusLayerEquirect :=
  let self := { self with swapChain := none }
  { self with toOculusLayerBase := OculusLayerBase.Destroy self.toOculusLayerBase }

/-- The method OculusLayerEquirect::IsDrawRequested. -/
def IsDrawRequested (self : OculusLayerEquirect) : Bool :=
  match self.sourceLayer with
  | none => false
  | some source =>
    source.GetSwapChain.isSome && source.IsComposited && self.layer.drawRequested

/-- One iteration of the loop of OculusLayerEquirect::Update; the state is the layer and the
local clip. -/
def UpdateEye (ext : Externals) (aClearSwapChain : SwapChainPtr)
    (acc : OculusLayerBase × Bool) (i : Fin VRAPI_FRAME_LAYER_EYE_MAX) :
    OculusLayerBase × Bool :=
  let self := acc.1
  let clip := acc.2
  let eye := eyeOf i
  let t := self.ovrLayer.Textures i
  let t := { t with ColorSwapChain := self.GetTargetSwapChain aClearSwapChain }
  let t := { t with SwapChainIndex := 0 }
  let scale := ext.GetScale (self.layer.uvTransform eye)
  let translation := ext.GetTranslation (self.layer.uvTransform eye)
  let t := { t with TextureMatrix := t.TextureMatrix.set 0 0 scale.x }
  let t := { t with TextureMatrix := t.TextureMatrix.set 1 1 scale.y }
  let t := { t with TextureMatrix := t.TextureMatrix.set 0 2 translation.x }
  let t := { t with TextureMatrix := t.TextureMatrix.set 1 2 translation.y }
  let textureRect := self.layer.textureRect eye
  let t := { t with TextureRect :=
    ⟨textureRect.mX, textureRect.mY, textureRect.mWidth, textureRect.mHeight⟩ }
  (self.setTexture i t, clip || !textureRect.IsDefault)

/-- The method OculusLayerEquirect::Update. -/
def Update (ext : Externals) (self : OculusLayerEquirect) (aTracking : ovrTracking2)
    (aClearSwapChain : SwapChainPtr) : OculusLayerEquirect :=
  let self :=
    match self.sourceLayer with
    | some source => { self with swapChain := source.GetSwapChain }
    | none => self
  let base := OculusLayerBase.Update self.toOculusLayerBase aTracking aClearSwapChain
  let q := ext.QuaternionFromMatrix (base.layer.modelTransform device.Eye.Left)
  let base := { base with ovrLayer := { base.ovrLayer with
    HeadPose := ⟨⟨⟨q.x, q.y, q.z, q.w⟩, base.ovrLayer.HeadPose.Pose.Position⟩⟩ } }
  let clip := false
  let acc := (List.finRange VRAPI_FRAME_LAYER_EYE_MAX).foldl
    (UpdateEye ext aClearSwapChain) (base, clip)
  { self with toOculusLayerBase := acc.1.SetClipEnabled acc.2 }

end OculusLayerEquirect

/-- The four layer variants, each with the state of its object. -/
inductive LayerVariant where
  | Quad (self : OculusLayerBase)
  | Cylinder (self : OculusLayerBase)
  | Cube (self : OculusLayerBase)
  | Equirect (self : OculusLayerEquirect)

/-- The virtual call OculusLayer::Destroy, dispatched to the variant. -/
def LayerVariant.Destroy : LayerVariant → LayerVariant
  | .Quad self => .Quad (OculusLayerSurface.Destroy self)
  | .Cylinder self => .Cylinder (OculusLayerSurface.Destroy self)
  | .Cube self => .Cube (OculusLayerCube.Destroy self)
  | .Equirect self => .Equirect (OculusLayerEquirect.Destroy self)

/-- The swap-chain member of a variant. -/
def LayerVariant.swapChain : LayerVariant → SwapChainPtr
  | .Quad self => self.swapChain
  | .Cylinder self => self.swapChain
  | .Cube self => self.swapChain
  | .Equirect self => self.swapChain

namespace ElbowModel

/-- The enum ElbowModel::HandEnum (ElbowModel.h). -/
inductive HandEnum where
  | Left
  | Right
deriving DecidableEq

end ElbowModel

namespace device

/-- The enum device::RenderMode (Device.h). -/
inductive RenderMode where
  | StandAlone
  | Immersive
deriving DecidableEq

/-- The bit set device::CapabilityFlags (Device.h). -/
abbrev CapabilityFlags := Nat

/-- Modelled from the spec: the flag device::Position (Device.h, not under src/), a single
bit of the capability set. -/
def Position : CapabilityFlags := 1 <<< 1

/-- Modelled from the spec: the flag device::Orientation (Device.h, not under src/), a single
bit of the capability set, distinct from Position. -/
def Orientation : CapabilityFlags := 1 <<< 2

end device

/-- The constant kAverageHeight. -/
def kAverageHeight : vrb.Vector := ⟨0.0, 1.7, 0.0⟩

/-- The constant kMaxControllerCount. -/
def kMaxControllerCount : Nat := 2

/-- The constant kNumButtons. -/
def kNumButtons : Int := 6

/-- The constant kNumG2Buttons. -/
def kNumG2Buttons : Int := 2

/-- The constant kNumAxes. -/
def kNumAxes : Int := 2

/-- The constant kTypeNeo2. -/
def kTypeNeo2 : Int := 1

/-- The constant kButtonApp. -/
def kButtonApp : Int := 1

/-- The constant kButtonTrigger. -/
def kButtonTrigger : Int := 1 <<< 1

/-- The constant kButtonTouchPad. -/
def kButtonTouchPad : Int := 1 <<< 2

/-- The constant kButtonAX. -/
def kButtonAX : Int := 1 <<< 3

/-- The constant kButtonBY. -/
def kButtonBY : Int := 1 <<< 4

/-- The constant kButtonGrip. -/
def kButtonGrip : Int := 1 <<< 5

namespace ControllerDelegate

/-- The button names of ControllerDelegate::Button used by the device delegate. -/
inductive Button where
  | BUTTON_APP
  | BUTTON_TRIGGER
  | BUTTON_TOUCHPAD
  | BUTTON_OTHERS
  | BUTTON_A
  | BUTTON_B
  | BUTTON_X
  | BUTTON_Y
deriving DecidableEq

end ControllerDelegate

/-- One call received by the controller delegate, with its arguments in the order of the
call. The last argument of SetButtonState is the optional trigger value, none when the call
site leaves it out. -/
inductive DelegateCall where
  | CreateController (aControllerIndex : Int) (aModelIndex : Int) (aImmersiveName : String)
      (aBeamTransform : vrb.Matrix)
  | SetButtonCount (aControllerIndex : Int) (aNumButtons : Int)
  | SetHapticCount (aControllerIndex : Int) (aNumHaptics : Int)
  | SetCapabilityFlags (aControllerIndex : Int) (aFlags : device.CapabilityFlags)
  | SetButtonState (aControllerIndex : Int) (aWhichButton : ControllerDelegate.Button)
      (aImmersiveIndex : Int) (aPressed : Bool) (aTouched : Bool)
      (aImmersiveTrigger : Option ℚ)
  | SetAxes (aControllerIndex : Int) (aData : List ℚ) (aLength : Int)
  | SetTouchPosition (aControllerIndex : Int) (aTouchX : ℚ) (aTouchY : ℚ)
  | EndTouch (aControllerIndex : Int)
  | SetTransform (aControllerIndex : Int) (aTransform : vrb.Matrix)
  | SetEnabled (aControllerIndex : Int) (aEnabled : Bool)
  | SetVisible (aControllerIndex : Int) (aVisible : Bool)
  | SetLeftHanded (aControllerIndex : Int) (aLeftHanded : Bool)
deriving DecidableEq

/-- One call received by the immersive display. -/
inductive DisplayCall where
  | SetFieldOfView (aEye : device.Eye) (aLeft aRight aTop aBottom : ℚ)
  | SetEyeOffset (aEye : device.Eye) (aX aY aZ : ℚ)
deriving DecidableEq

/-- What the device delegate sets on a vrb::CameraEye. -/
structure CameraEye where
  perspective : vrb.Matrix
  eyeTransform : vrb.Matrix
  headTransform : vrb.Matrix
deriving DecidableEq

/-- Library functions called by the device delegate: of vrb::Matrix Rotation (from a
quaternion and from axis and angle), Position, Translation, PerspectiveMatrix,
PreMultiplyInPlace and TranslateInPlace, vrb::CameraEye::Create, ElbowModel::GetTransform,
the conversion int32_t(hand), the initial field of view 51 degrees in radians, the
radians-to-degrees factor, and the angle -PI_FLOAT / 11.5f. -/
structure Collaborators where
  Rotation : vrb.Quaternion → vrb.Matrix
  RotationAxis : vrb.Vector → ℚ → vrb.Matrix
  Position : vrb.Vector → vrb.Matrix
  Translation : vrb.Vector → vrb.Matrix
  PerspectiveMatrix : ℚ → ℚ → ℚ → ℚ → ℚ → ℚ → vrb.Matrix
  PreMultiply : vrb.Matrix → vrb.Matrix → vrb.Matrix
  Translate : vrb.Matrix → vrb.Vector → vrb.Matrix
  CreateCamera : CameraEye
  GetTransform : ElbowModel.HandEnum → vrb.Matrix → vrb.Matrix → vrb.Matrix
  handIndex : ElbowModel.HandEnum → Int
  initialFov : ℚ
  toDegrees : ℚ → ℚ
  beamAngle : ℚ

namespace DeviceDelegatePicoVR

/-- The struct State::Controller with the values its constructor and member initialisers
give; buttonsState, which the constructor leaves unset, starts at 0. -/
structure Controller where
  index : Int := -1
  created : Bool := false
  enabled : Bool := false
  touched : Bool := false
  is6DoF : Bool := false
  transform : vrb.Matrix := vrb.Matrix.Identity
  buttonsState : Int := 0
  grip : ℚ := 0.0
  axisX : ℚ := 0
  axisY : ℚ := 0
  hand : ElbowModel.HandEnum := ElbowModel.HandEnum.Right
deriving DecidableEq

/-- The method Controller::IsRightHand. -/
def Controller.IsRightHand (c : Controller) : Bool :=
  c.hand == ElbowModel.HandEnum.Right

/-- The struct DeviceDelegatePicoVR::State. The weak context is what lock() yields, the
cameras are null until created, and each collaborator pointer carries the calls its object
has received. -/
structure State where
  context : Option Unit
  initialized : Bool
  paused : Bool
  type : Int
  renderMode : device.RenderMode
  setHeadOffset : Bool
  headOffset : vrb.Vector
  cameras : List (Option CameraEye)
  near : ℚ
  far : ℚ
  controllers : List Controller
  elbow : Option Unit
  controllerDelegate : Option (List DelegateCall)
  immersiveDisplay : Option (List DisplayCall)
  orientation : vrb.Quaternion
  position : vrb.Vector
  ipd : ℚ
  fov : ℚ
deriving DecidableEq

/-- The state right after construction, from the member initialisers of State. -/
def State.construct (col : Collaborators) (aContext : Option Unit) : State :=
  { context := aContext
    initialized := false
    paused := false
    type := 0
    renderMode := device.RenderMode.StandAlone
    setHeadOffset := true
    headOffset := ⟨0, 0, 0⟩
    cameras := [none, none]
    near := 0.1
    far := 100
    controllers := List.replicate kMaxControllerCount {}
    elbow := none
    controllerDelegate := none
    immersiveDisplay := none
    orientation := ⟨0, 0, 0, 1⟩
    position := ⟨0, 0, 0⟩
    ipd := 0.064
    fov := col.initialFov }

/-- The call cameras[k]->f(...), which needs the camera to exist. -/
def State.onCamera (s : State) (k : Nat) (f : CameraEye → CameraEye) : Option State :=
  match s.cameras.get? k with
  | some (some cam) => some { s with cameras := s.cameras.set k (some (f cam)) }
  | _ => none

/-- The method State::UpdatePerspective. -/
def State.UpdatePerspective (col : Collaborators) (s : State) : Option State := do
  let projection := col.PerspectiveMatrix s.fov s.fov s.fov s.fov s.near s.far
  let s ← s.onCamera 0 (fun cam => { cam with perspective := projection })
  let s ← s.onCamera 1 (fun cam => { cam with perspective := projection })
  match s.immersiveDisplay with
  | some calls =>
    let fovDegrees := col.toDegrees s.fov
    some { s with immersiveDisplay := some (calls ++
      [DisplayCall.SetFieldOfView device.Eye.Left fovDegrees fovDegrees fovDegrees fovDegrees,
       DisplayCall.SetFieldOfView device.Eye.Right fovDegrees fovDegrees fovDegrees
         fovDegrees]) }
  | none => some s

/-- The method State::UpdateEyeTransform. -/
def State.UpdateEyeTransform (col : Collaborators) (s : State) : Option State := do
  let s ← s.onCamera 0
    (fun cam => { cam with eyeTransform := col.Translation ⟨-s.ipd * 0.5, 0, 0⟩ })
  let s ← s.onCamera 1
    (fun cam => { cam with eyeTransform := col.Translation ⟨s.ipd * 0.5, 0, 0⟩ })
  match s.immersiveDisplay with
  | some calls =>
    some { s with immersiveDisplay := some (calls ++
      [DisplayCall.SetEyeOffset device.Eye.Left (-s.ipd * 0.5) 0 0,
       DisplayCall.SetEyeOffset device.Eye.Right (s.ipd * 0.5) 0 0]) }
  | none => some s

/-- One iteration of the loop of State::Initialize over the controller slots. -/
def State.InitializeController (controllers : List Controller) (index : Nat) :
    List Controller :=
  match controllers.get? index with
  | none => controllers
  | some c =>
    let c := { c with index := (index : Int) }
    let c :=
      if index = 0 then { c with hand := ElbowModel.HandEnum.Right }
      else { c with hand := ElbowModel.HandEnum.Left }
    let c := { c with is6DoF := true }
    controllers.set index c

/-- The method State::Initialize. -/
def State.Initialize (col : Collaborators) (s : State) : Option State := do
  let _localContext ← s.context
  let s := { s with cameras := s.cameras.set 0 (some col.CreateCamera) }
  let s := { s with cameras := s.cameras.set 1 (some col.CreateCamera) }
  let s ← s.UpdatePerspective col
  let s ← s.UpdateEyeTransform col
  let s := { s with controllers :=
    (List.range kMaxControllerCount).foldl State.InitializeController s.controllers }
  let s := { s with elbow := some () }
  some { s with initialized := true }

/-- The factory DeviceDelegatePicoVR::Create. -/
def Create (col : Collaborators) (aContext : Option Unit) : Option State :=
  (State.construct col aContext).Initialize col

/-- The local transform at the end of the loop body of State::UpdateControllers, the value
handed to SetTransform. -/
def State.controllerTransform (col : Collaborators) (s : State) (controller : Controller) :
    vrb.Matrix :=
  let transform := controller.transform
  if s.renderMode = device.RenderMode.StandAlone then
    if s.type = kTypeNeo2 then
      col.Translate transform s.headOffset
    else
      let head := col.Rotation s.orientation
      let head := col.PreMultiply head (col.Position s.headOffset)
      col.GetTransform controller.hand head transform
  else transform

/-- The calls State::UpdateControllers makes on the delegate for the enabled controller of
slot i, in the order of the loop body. -/
def State.UpdateControllerCalls (col : Collaborators) (s : State) (i : Int)
    (controller : Controller) : List DelegateCall :=
  let flags := device.Orientation
  let flags := if controller.is6DoF then flags ||| device.Position else flags
  let appPressed := decide (Int.land controller.buttonsState kButtonApp > 0)
  let triggerPressed := decide (Int.land controller.buttonsState kButtonTrigger > 0)
  let touchPadPressed := decide (Int.land controller.buttonsState kButtonTouchPad > 0)
  let axPressed := decide (Int.land controller.buttonsState kButtonAX > 0)
  let byPressed := decide (Int.land controller.buttonsState kButtonBY > 0)
  let gripPressed := decide (Int.land controller.buttonsState kButtonGrip > 0)
  let transform := s.controllerTransform col controller
  [DelegateCall.SetCapabilityFlags i flags,
   DelegateCall.SetButtonState i ControllerDelegate.Button.BUTTON_APP (-1) appPressed
     appPressed none,
   DelegateCall.SetButtonState i ControllerDelegate.Button.BUTTON_TOUCHPAD 0 touchPadPressed
     touchPadPressed none,
   DelegateCall.SetButtonState i ControllerDelegate.Button.BUTTON_TRIGGER 1 triggerPressed
     triggerPressed none]
  ++ (if s.type = kTypeNeo2 then
        [DelegateCall.SetButtonState i ControllerDelegate.Button.BUTTON_OTHERS 2 gripPressed
           gripPressed (some (if gripPressed then 20.0 else 0.0)),
         DelegateCall.SetButtonState i
           (if controller.IsRightHand then ControllerDelegate.Button.BUTTON_A
            else ControllerDelegate.Button.BUTTON_X) 3 axPressed axPressed none,
         DelegateCall.SetButtonState i
           (if controller.IsRightHand then ControllerDelegate.Button.BUTTON_B
            else ControllerDelegate.Button.BUTTON_Y) 4 byPressed byPressed none,
         DelegateCall.SetButtonState i ControllerDelegate.Button.BUTTON_OTHERS 5 false false
           none]
      else [])
  ++ [DelegateCall.SetAxes i [0.0, 0.0] kNumAxes,
      if controller.touched then
        DelegateCall.SetTouchPosition i controller.axisX controller.axisY
      else DelegateCall.EndTouch i,
      DelegateCall.SetTransform i transform]

/-- One iteration of the loop of State::UpdateControllers: a controller that is not enabled
is skipped, and for an enabled one the calls go to the delegate, which must not be null. -/
def State.UpdateControllersStep (col : Collaborators) (acc : Option State)
    (entry : Nat × Controller) : Option State :=
  match acc with
  | none => none
  | some s =>
    if !entry.2.enabled then some s
    else
      match s.controllerDelegate with
      | none => none
      | some calls =>
        let emitted := State.UpdateControllerCalls col s (entry.1 : Int) entry.2
        some { s with controllerDelegate := some (calls ++ emitted) }

/-- The method State::UpdateControllers: the loop over i = 0 .. controllers.size() - 1. -/
def State.UpdateControllers (col : Collaborators) (s : State) : Option State :=
  s.controllers.enum.foldl (State.UpdateControllersStep col) (some s)

/-- One call on m.controllerDelegate. -/
def State.call (s : State) (c : DelegateCall) : Option State :=
  match s.controllerDelegate with
  | none => none
  | some calls => some { s with controllerDelegate := some (calls ++ [c]) }

/-- The slot of index aIndex, when the index is inside the array. -/
def State.slot (s : State) (aIndex : Int) : Option Controller :=
  if 0 ≤ aIndex then s.controllers.get? aIndex.toNat else none

/-- The assignment m.controllers[aIndex] = c for an index inside the array. -/
def State.setSlot (s : State) (aIndex : Int) (c : Controller) : State :=
  { s with controllers := s.controllers.set aIndex.toNat c }

/-- One iteration of the loop of DeviceDelegatePicoVR::SetControllerDelegate over the
controllers. -/
def SetControllerDelegateStep (col : Collaborators) (acc : Option State) (k : Nat) :
    Option State := do
  let s ← acc
  let controller ← s.controllers.get? k
  let index := controller.index
  let s ←
    if s.type = kTypeNeo2 then do
      let beam := col.RotationAxis ⟨1.0, 0.0, 0.0⟩ col.beamAngle
      let beam := col.Translate beam ⟨0.0, 0.012, -0.06⟩
      let s ← s.call (DelegateCall.CreateController index (col.handIndex controller.hand)
        (if controller.IsRightHand then ("Oculus Touch (Right)") else ("Oculus Touch (LEFT)"))
        beam)
      let s ← s.call (DelegateCall.SetButtonCount index kNumButtons)
      s.call (DelegateCall.SetHapticCount index 0)
    else do
      let beam := col.RotationAxis ⟨1.0, 0.0, 0.0⟩ col.beamAngle
      let s ← s.call (DelegateCall.CreateController index 0 ("Oculus Go Controller") beam)
      let s ← s.call (DelegateCall.SetButtonCount index kNumG2Buttons)
      s.call (DelegateCall.SetHapticCount index 0)
  some { s with controllers := s.controllers.set k { controller with created := true } }

/-- The method DeviceDelegatePicoVR::SetControllerDelegate; the argument is the delegate with
the calls it has received so far. -/
def SetControllerDelegate (col : Collaborators) (s : State)
    (aController : Option (List DelegateCall)) : Option State :=
  let s := { s with controllerDelegate := aController }
  (List.range s.controllers.length).foldl (SetControllerDelegateStep col) (some s)

/-- The method DeviceDelegatePicoVR::ReleaseControllerDelegate. -/
def ReleaseControllerDelegate (s : State) : State :=
  { s with controllerDelegate := none }

/-- The method DeviceDelegatePicoVR::SetRenderMode. -/
def SetRenderMode (s : State) (aMode : device.RenderMode) : State :=
  if aMode = s.renderMode then s else { s with renderMode := aMode }

/-- The method DeviceDelegatePicoVR::StartFrame. -/
def StartFrame (col : Collaborators) (s : State) : Option State := do
  let head := col.Rotation s.orientation
  let head := col.Translate head s.position
  let head :=
    if s.renderMode = device.RenderMode.StandAlone then col.Translate head s.headOffset
    else head
  let s ← s.onCamera 0 (fun cam => { cam with headTransform := head })
  let s ← s.onCamera 1 (fun cam => { cam with headTransform := head })
  s.UpdateControllers col

/-- The method DeviceDelegatePicoVR::Pause. -/
def Pause (s : State) : State := { s with paused := true }

/-- The method DeviceDelegatePicoVR::Resume. -/
def Resume (s : State) : State := { s with paused := false }

/-- The method DeviceDelegatePicoVR::SetType. -/
def SetType (s : State) (aType : Int) : State := { s with type := aType }

/-- The method DeviceDelegatePicoVR::UpdatePosition. -/
def UpdatePosition (s : State) (aPosition : vrb.Vector) : State :=
  let s :=
    if s.setHeadOffset then
      let s := { s with headOffset := kAverageHeight - aPosition }
      { s with setHeadOffset := false }
    else s
  { s with position := aPosition }

/-- The method DeviceDelegatePicoVR::UpdateOrientation. -/
def UpdateOrientation (s : State) (aOrientation : vrb.Quaternion) : State :=
  { s with orientation := aOrientation }

/-- The method DeviceDelegatePicoVR::UpdateControllerConnected. -/
def UpdateControllerConnected (s : State) (aIndex : Int) (aConnected : Bool) :
    Option State := do
  let controller ← s.slot aIndex
  if controller.enabled != aConnected then
    let controller := { controller with enabled := aConnected }
    let s := s.setSlot aIndex controller
    let s ← s.call (DelegateCall.SetLeftHanded aIndex (!controller.IsRightHand))
    let s ← s.call (DelegateCall.SetEnabled aIndex aConnected)
    s.call (DelegateCall.SetVisible aIndex aConnected)
  else
    some s

/-- The method DeviceDelegatePicoVR::UpdateControllerPose. -/
def UpdateControllerPose (col : Collaborators) (s : State) (aIndex : Int) (a6Dof : Bool)
    (aPosition : vrb.Vector) (aRotation : vrb.Quaternion) : Option State := do
  let quat : vrb.Quaternion := ⟨-aRotation.x, -aRotation.y, aRotation.z, aRotation.w⟩
  let transform := col.Rotation quat
  let transform := col.PreMultiply transform (col.Position aPosition)
  let controller ← s.slot aIndex
  let s := s.setSlot aIndex { controller with transform := transform }
  let controller ← s.slot aIndex
  some (s.setSlot aIndex { controller with is6DoF := a6Dof })

/-- The method DeviceDelegatePicoVR::UpdateControllerButtons. -/
def UpdateControllerButtons (s : State) (aIndex : Int) (aButtonsState : Int) (aGrip : ℚ)
    (axisX axisY : ℚ) (touched : Bool) : Option State := do
  let controller ← s.slot aIndex
  some (s.setSlot aIndex { controller with
    buttonsState := aButtonsState, grip := aGrip, axisX := axisX, axisY := axisY,
    touched := touched })

end DeviceDelegatePicoVR

/-- A concrete choice of the library functions, for evaluating the embedding on concrete
inputs: translations add to the cells (3, 0), (3, 1), (3, 2), the elbow model hands back the
head matrix it is given, everything else yields the identity. -/
def sampleCollaborators : Collaborators :=
  { Rotation := fun _ => vrb.Matrix.Identity
    RotationAxis := fun _ _ => vrb.Matrix.Identity
    Position := fun _ => vrb.Matrix.Identity
    Translation := fun _ => vrb.Matrix.Identity
    PerspectiveMatrix := fun _ _ _ _ _ _ => vrb.Matrix.Identity
    PreMultiply := fun a _ => a
    Translate := fun a v => ⟨fun i j =>
      if i = 3 ∧ j = 0 then a.m i j + v.x
      else if i = 3 ∧ j = 1 then a.m i j + v.y
      else if i = 3 ∧ j = 2 then a.m i j + v.z
      else a.m i j⟩
    CreateCamera := ⟨vrb.Matrix.Identity, vrb.Matrix.Identity, vrb.Matrix.Identity⟩
    GetTransform := fun _ head _ => head
    handIndex := fun h => if h = ElbowModel.HandEnum.Left then 0 else 1
    initialFov := 89 / 100
    toDegrees := fun r => r * 57
    beamAngle := -27 / 100 }

/-- The device state DeviceDelegatePicoVR::Create builds with sampleCollaborators and a live
render context. -/
def sampleCreated : DeviceDelegatePicoVR.State :=
  { context := some ()
    initialized := true
    paused := false
    type := 0
    renderMode := device.RenderMode.StandAlone
    setHeadOffset := true
    headOffset := ⟨0, 0, 0⟩
    cameras := [some ⟨vrb.Matrix.Identity, vrb.Matrix.Identity, vrb.Matrix.Identity⟩,
      some ⟨vrb.Matrix.Identity, vrb.Matrix.Identity, vrb.Matrix.Identity⟩]
    near := 0.1
    far := 100
    controllers :=
      [{ index := 0, hand := ElbowModel.HandEnum.Right, is6DoF := true },
       { index := 1, hand := ElbowModel.HandEnum.Left, is6DoF := true }]
    elbow := some ()
    controllerDelegate := none
    immersiveDisplay := none
    orientation := ⟨0, 0, 0, 1⟩
    position := ⟨0, 0, 0⟩
    ipd := 0.064
    fov := 89 / 100 }

/-- The created sample state after a delegate that has received no call yet was attached. -/
def sampleWithDelegate : DeviceDelegatePicoVR.State :=
  { sampleCreated with controllerDelegate := some [] }

/-- The calls of one run of State::UpdateControllers put together: those of every enabled
slot, in slot order. -/
def DeviceDelegatePicoVR.State.frameCalls (col : Collaborators)
    (s : DeviceDelegatePicoVR.State) : List DelegateCall :=
  s.controllers.enum.flatMap (fun entry =>
    if entry.2.enabled then s.UpdateControllerCalls col (entry.1 : Int) entry.2 else [])

/-- A connected right-hand controller with both face-button bits (kButtonAX and kButtonBY)
set in its button mask. -/
def sampleRightController : DeviceDelegatePicoVR.Controller :=
  { index := 0, enabled := true, hand := ElbowModel.HandEnum.Right, is6DoF := true,
    buttonsState := 24 }

/-- The sample state with the right-hand controller of slot 0 connected and both face-button
bits (kButtonAX and kButtonBY) set, on a device whose type is not kTypeNeo2. -/
def sampleFaceButtonsG2 : DeviceDelegatePicoVR.State :=
  { sampleWithDelegate with
    controllers :=
      [sampleRightController,
       { index := 1, hand := ElbowModel.HandEnum.Left, is6DoF := true }] }

/-- The sample state of sampleFaceButtonsG2 on a device of type kTypeNeo2. -/
def sampleFaceButtonsNeo2 : DeviceDelegatePicoVR.State :=
  { sampleFaceButtonsG2 with type := kTypeNeo2 }

/-- The zero table as a compositor matrix. -/
def sampleOvrMatrix : ovrMatrix4f := ⟨fun _ _ => 0⟩

/-- A compositor layer struct with null swap-chains and zero tables. -/
def sampleOvrLayer : OvrLayer :=
  { HeadPose := ⟨⟨⟨0, 0, 0, 1⟩, ⟨0, 0, 0⟩⟩⟩
    TexCoordsFromTanAngles := sampleOvrMatrix
    Textures := fun _ => ⟨none, 0, sampleOvrMatrix, ⟨0, 0, 0, 0⟩, sampleOvrMatrix⟩ }

/-- A descriptor that requests drawing, is loaded, has world size 2 x 1 and the full-extent
texture rect for both eyes. -/
def sampleVRLayer : VRLayer :=
  { drawRequested := true
    loaded := true
    textureHandle := 5
    worldWidth := 2
    worldHeight := 1
    view := fun _ => vrb.Matrix.Identity
    modelTransform := fun _ => vrb.Matrix.Identity
    uvTransform := fun _ => vrb.Matrix.Identity
    textureRect := fun _ => ⟨0, 0, 1, 1⟩ }

/-- A layer object on which Init has not run: the swap-chain is null. -/
def sampleNeverInitialized : OculusLayerBase :=
  { swapChain := none
    composited := false
    layer := sampleVRLayer
    ovrLayer := sampleOvrLayer
    clipEnabled := false
    released := [] }

/-- A concrete choice of the library functions of the layers: the product keeps its left
factor, scale and translation are read off as (1, 1, 1) and (0, 0, 0), and the other
functions yield the zero table or pass their argument on. -/
def sampleExternals : Externals :=
  { PostMultiply := fun a _ => a
    GetScale := fun _ => ⟨1, 1, 1⟩
    GetTranslation := fun _ => ⟨0, 0, 0⟩
    QuaternionFromMatrix := fun _ => ⟨0, 0, 0, 1⟩
    TanAngleMatrixFromUnitSquare := fun m => m
    CreateIdentity := ⟨fun i j => if i = j then 1 else 0⟩
    DefaultLayerEquirect2 := sampleOvrLayer }

/-- An equirect layer that was composited and holds swap-chain 7 from an earlier Init, at a
time when its source layer is gone. -/
def sampleStaleEquirect : OculusLayerEquirect :=
  { swapChain := some 7
    composited := true
    layer := sampleVRLayer
    ovrLayer := sampleOvrLayer
    clipEnabled := false
    released := []
    sourceLayer := none }

/-- The sample state of sampleFaceButtonsG2 after UpdatePosition with the sample (0, 1, 0):
slot 0 is enabled with is6DoF true, the render mode is StandAlone, the device type is not
kTypeNeo2 and the latched head offset is (0, 0.7, 0). -/
def sampleLatchedG2 : DeviceDelegatePicoVR.State :=
  DeviceDelegatePicoVR.UpdatePosition sampleFaceButtonsG2 ⟨0, 1, 0⟩

/-- The controller index a delegate call is made for: its first argument. -/
def DelegateCall.controllerIndex : DelegateCall → Int
  | .CreateController i _ _ _ => i
  | .SetButtonCount i _ => i
  | .SetHapticCount i _ => i
  | .SetCapabilityFlags i _ => i
  | .SetButtonState i _ _ _ _ _ => i
  | .SetAxes i _ _ => i
  | .SetTouchPosition i _ _ => i
  | .EndTouch i => i
  | .SetTransform i _ => i
  | .SetEnabled i _ => i
  | .SetVisible i _ => i
  | .SetLeftHanded i _ => i

/-- Whether a delegate call is one of the two touch calls, SetTouchPosition or EndTouch, made
for the controller index i. -/
def DelegateCall.isTouchCallFor (i : Int) : DelegateCall → Bool
  | .SetTouchPosition j _ _ => j == i
  | .EndTouch j => j == i
  | _ => false

/-- The sample state on which UpdateControllerButtons stored, for the enabled slot 0, the
axis values (1/4, 3/4) with the touched flag set. -/
def sampleTouched : DeviceDelegatePicoVR.State :=
  { sampleWithDelegate with
    controllers :=
      [{ index := 0, enabled := true, touched := true, axisX := 1 / 4, axisY := 3 / 4,
         hand := ElbowModel.HandEnum.Right, is6DoF := true },
       { index := 1, hand := ElbowModel.HandEnum.Left, is6DoF := true }] }

namespace DeviceDelegatePicoVR

/-- The public device operations, each with its arguments. -/
inductive Op where
  | UpdateControllerConnected (aIndex : Int) (aConnected : Bool)
  | UpdateControllerPose (aIndex : Int) (a6Dof : Bool) (aPosition : vrb.Vector)
      (aRotation : vrb.Quaternion)
  | UpdateControllerButtons (aIndex : Int) (aButtonsState : Int) (aGrip : ℚ) (axisX : ℚ)
      (axisY : ℚ) (touched : Bool)
  | UpdatePosition (aPosition : vrb.Vector)
  | UpdateOrientation (aOrientation : vrb.Quaternion)
  | SetType (aType : Int)
  | SetRenderMode (aMode : device.RenderMode)
  | Pause
  | Resume
  | StartFrame
  | SetControllerDelegate (aController : Option (List DelegateCall))

/-- One public operation run on the device state. -/
def Op.apply (col : Collaborators) (s : State) : Op → Option State
  | .UpdateControllerConnected aIndex aConnected =>
      DeviceDelegatePicoVR.UpdateControllerConnected s aIndex aConnected
  | .UpdateControllerPose aIndex a6Dof aPosition aRotation =>
      DeviceDelegatePicoVR.UpdateControllerPose col s aIndex a6Dof aPosition aRotation
  | .UpdateControllerButtons aIndex aButtonsState aGrip axisX axisY touched =>
      DeviceDelegatePicoVR.UpdateControllerButtons s aIndex aButtonsState aGrip axisX axisY
        touched
  | .UpdatePosition aPosition => some (DeviceDelegatePicoVR.UpdatePosition s aPosition)
  | .UpdateOrientation aOrientation =>
      some (DeviceDelegatePicoVR.UpdateOrientation s aOrientation)
  | .SetType aType => some (DeviceDelegatePicoVR.SetType s aType)
  | .SetRenderMode aMode => some (DeviceDelegatePicoVR.SetRenderMode s aMode)
  | .Pause => some (DeviceDelegatePicoVR.Pause s)
  | .Resume => some (DeviceDelegatePicoVR.Resume s)
  | .StartFrame => DeviceDelegatePicoVR.StartFrame col s
  | .SetControllerDelegate aController =>
      DeviceDelegatePicoVR.SetControllerDelegate col s aController

/-- A sequence of public operations run one after the other. -/
def runOps (col : Collaborators) (s : State) : List Op → Option State
  | [] => some s
  | op :: ops => (op.apply col s).bind (fun s1 => runOps col s1 ops)

/-- The arguments of an operation are valid: a slot index is 0 or 1 and a delegate that is
attached is not null. -/
def Op.valid : Op → Bool
  | .UpdateControllerConnected aIndex _ => decide (0 ≤ aIndex ∧ aIndex < kMaxControllerCount)
  | .UpdateControllerPose aIndex _ _ _ => decide (0 ≤ aIndex ∧ aIndex < kMaxControllerCount)
  | .UpdateControllerButtons aIndex _ _ _ _ _ =>
      decide (0 ≤ aIndex ∧ aIndex < kMaxControllerCount)
  | .SetControllerDelegate aController => aController.isSome
  | _ => true

/-- The index and the hand of a controller slot. -/
def Controller.slotKey (c : Controller) : Int × ElbowModel.HandEnum := (c.index, c.hand)

/-- The state can run every valid operation: a delegate is attached, both cameras exist
and the controller array has its kMaxControllerCount slots. -/
def State.ready (s : State) : Prop :=
  s.controllerDelegate.isSome = true ∧
  (∃ cam, s.cameras.get? 0 = some (some cam)) ∧
  (∃ cam, s.cameras.get? 1 = some (some cam)) ∧
  s.controllers.length = kMaxControllerCount

end DeviceDelegatePicoVR

/-- A sample session on the created sample state: a delegate is attached, both controllers
connect, buttons and a pose arrive for slot 1, and a frame starts. -/
def sampleOps : List DeviceDelegatePicoVR.Op :=
  [.SetControllerDelegate (some []),
   .UpdateControllerConnected 0 true,
   .UpdateControllerConnected 1 true,
   .UpdateControllerButtons 1 8 0 0 0 false,
   .UpdateControllerPose 1 false ⟨0, 1, 0⟩ ⟨0, 0, 0, 1⟩,
   .UpdatePosition ⟨0, 1, 0⟩,
   .StartFrame]

/-- The state the sample session ends in. -/
def sampleAfterOps : DeviceDelegatePicoVR.State :=
  (DeviceDelegatePicoVR.runOps sampleCollaborators sampleCreated sampleOps).getD sampleCreated

end crow

namespace crow

theorem rowOf_flatIndex (r c : Fin 4) : rowOf (flatIndex r c) = r := by
  apply Fin.ext
  simp only [rowOf, flatIndex]
  omega

theorem colOf_flatIndex (r c : Fin 4) : colOf (flatIndex r c) = c := by
  apply Fin.ext
  simp only [rowOf, colOf, flatIndex]
  omega

theorem flatIndex_rowOf_colOf (i : Fin 16) : flatIndex (rowOf i) (colOf i) = i := by
  apply Fin.ext
  simp only [rowOf, colOf, flatIndex]
  omega

theorem cell_eq_iff (i : Fin 16) (r c : Fin 4) :
    (r = rowOf i ∧ c = colOf i) ↔ flatIndex r c = i := by
  constructor
  · rintro ⟨rfl, rfl⟩
    exact flatIndex_rowOf_colOf i
  · rintro rfl
    exact ⟨(rowOf_flatIndex r c).symm, (colOf_flatIndex r c).symm⟩

/-- After the loop body has run over the indices of l, a cell holds the transposed source
value when its flat index is in l, and its start value otherwise. -/
theorem foldl_step_cell (A : vrb.Matrix) (l : List (Fin 16)) (m0 : ovrMatrix4f) (r c : Fin 4) :
    (l.foldl (ovrMatrixFromStep A) m0).M r c =
      if flatIndex r c ∈ l then A.m c r else m0.M r c := by
  induction l generalizing m0 with
  | nil => simp
  | cons i l ih =>
    rw [List.foldl_cons, ih]
    by_cases h : flatIndex r c ∈ l
    · simp [h]
    · by_cases hi : flatIndex r c = i
      · have hrc := (cell_eq_iff i r c).mpr hi
        simp [h, hi, ovrMatrixFromStep, ovrMatrix4f.set, vrb.Matrix.At, ← hrc.1, ← hrc.2]
      · have hrc : ¬ (r = rowOf i ∧ c = colOf i) := fun hh => hi ((cell_eq_iff i r c).mp hh)
        simp [h, hi, ovrMatrixFromStep, ovrMatrix4f.set, hrc]

theorem ovrMatrixFromLoop_cell (A : vrb.Matrix) (m0 : ovrMatrix4f) (r c : Fin 4) :
    (ovrMatrixFromLoop A m0).M r c = A.m c r := by
  unfold ovrMatrixFromLoop
  rw [foldl_step_cell]
  simp [List.mem_finRange]

/-- C6: ovrMatrixFrom is a transposed copy. For every matrix A and flat index i the cell
M[i/4][i%4] of the result holds A.At(i%4, i/4), whatever the local m held before the loop;
each of the 16 cells is written by exactly one of the 16 iterations; and converting the
result back by the same transposed read gives A again. -/
theorem ovrMatrixFrom_transposed_selfinverse (A : vrb.Matrix) (m0 : ovrMatrix4f) :
    (∀ i : Fin 16, (ovrMatrixFromLoop A m0).M (rowOf i) (colOf i) = A.At (colOf i) (rowOf i)) ∧
    (∀ i : Fin 16, (ovrMatrixFrom A).M (rowOf i) (colOf i) = A.At (colOf i) (rowOf i)) ∧
    (∀ r c : Fin 4,
      ((List.finRange 16).filter (fun i => rowOf i = r ∧ colOf i = c)).length = 1) ∧
    asMatrix (ovrMatrixFrom (asMatrix (ovrMatrixFrom A))) = A := by
  refine ⟨fun i => ?_, fun i => ?_, by decide, ?_⟩
  · rw [ovrMatrixFromLoop_cell]; rfl
  · unfold ovrMatrixFrom
    rw [ovrMatrixFromLoop_cell]; rfl
  · cases A with
    | mk a =>
      simp only [asMatrix, ovrMatrixFrom, vrb.Matrix.mk.injEq]
      funext r c
      rw [ovrMatrixFromLoop_cell]
      simp only []
      rw [ovrMatrixFromLoop_cell]

/-- C1: OculusLayerEquirect::IsDrawRequested is true exactly when the source layer is alive,
its swap-chain is non-null, it reports composited and the descriptor requests drawing; it is
false exactly when the source is gone or one of the other three fails. -/
theorem OculusLayerEquirect.isDrawRequested_iff_all_four (self : OculusLayerEquirect) :
    (self.IsDrawRequested = true ↔
      ∃ source, self.sourceLayer = some source ∧ source.GetSwapChain ≠ none ∧
        source.IsComposited = true ∧ self.layer.drawRequested = true) ∧
    (self.IsDrawRequested = false ↔
      (self.sourceLayer = none ∨
        ∃ source, self.sourceLayer = some source ∧
          (source.GetSwapChain = none ∨ source.IsComposited = false ∨
            self.layer.drawRequested = false))) := by
  unfold OculusLayerEquirect.IsDrawRequested
  cases hs : self.sourceLayer with
  | none => simp
  | some source =>
    cases hsc : source.GetSwapChain <;> cases hc : source.IsComposited <;>
      cases hd : self.layer.drawRequested <;> simp [hsc, hc, hd]

theorem finRange_eye : List.finRange VRAPI_FRAME_LAYER_EYE_MAX = [0, 1] := by
  decide

theorem EyeRect_IsDefault_iff (r : device.EyeRect) :
    r.IsDefault = true ↔ r = ⟨0, 0, 1, 1⟩ := by
  cases r
  simp [device.EyeRect.IsDefault, and_assoc]

theorem OculusLayerQuad.quadUpdate_clipEnabled (ext : Externals) (self : OculusLayerBase)
    (aTracking : ovrTracking2) (aClearSwapChain : SwapChainPtr) :
    (OculusLayerQuad.Update ext self aTracking aClearSwapChain).clipEnabled =
      (!(self.layer.textureRect device.Eye.Left).IsDefault ||
        !(self.layer.textureRect device.Eye.Right).IsDefault) := by
  simp [OculusLayerQuad.Update, finRange_eye, OculusLayerQuad.UpdateEye,
    OculusLayerSurface.Update, OculusLayerBase.Update, OculusLayerBase.SetClipEnabled,
    OculusLayerBase.setTexture, eyeOf]

theorem OculusLayerEquirect.equirectUpdate_clipEnabled (ext : Externals) (self : OculusLayerEquirect)
    (aTracking : ovrTracking2) (aClearSwapChain : SwapChainPtr) :
    (OculusLayerEquirect.Update ext self aTracking aClearSwapChain).clipEnabled =
      (!(self.layer.textureRect device.Eye.Left).IsDefault ||
        !(self.layer.textureRect device.Eye.Right).IsDefault) := by
  cases hs : self.sourceLayer <;>
    simp [OculusLayerEquirect.Update, hs, finRange_eye, OculusLayerEquirect.UpdateEye,
      OculusLayerBase.Update, OculusLayerBase.SetClipEnabled,
      OculusLayerBase.setTexture, eyeOf]

/-- C2: the value given to SetClipEnabled at the end of OculusLayerQuad::Update and of
OculusLayerEquirect::Update is true exactly when the texture rect of at least one eye is not
the full-extent rect with x 0, y 0, width 1, height 1; it is computed from the rects of the
current call and is the same whatever clip value the previous update left behind. -/
theorem Update_clip_iff_some_rect_not_default (ext : Externals) (quad : OculusLayerBase)
    (equirect : OculusLayerEquirect) (aTracking : ovrTracking2)
    (aClearSwapChain : SwapChainPtr) :
    ((OculusLayerQuad.Update ext quad aTracking aClearSwapChain).clipEnabled = true ↔
      (quad.layer.textureRect device.Eye.Left ≠ ⟨0, 0, 1, 1⟩ ∨
        quad.layer.textureRect device.Eye.Right ≠ ⟨0, 0, 1, 1⟩)) ∧
    ((OculusLayerEquirect.Update ext equirect aTracking aClearSwapChain).clipEnabled = true ↔
      (equirect.layer.textureRect device.Eye.Left ≠ ⟨0, 0, 1, 1⟩ ∨
        equirect.layer.textureRect device.Eye.Right ≠ ⟨0, 0, 1, 1⟩)) ∧
    (∀ previous : Bool,
      (OculusLayerQuad.Update ext { quad with clipEnabled := previous } aTracking
        aClearSwapChain).clipEnabled =
      (OculusLayerQuad.Update ext quad aTracking aClearSwapChain).clipEnabled) ∧
    (∀ previous : Bool,
      (OculusLayerEquirect.Update ext { equirect with clipEnabled := previous } aTracking
        aClearSwapChain).clipEnabled =
      (OculusLayerEquirect.Update ext equirect aTracking aClearSwapChain).clipEnabled) := by
  refine ⟨?_, ?_, fun previous => ?_, fun previous => ?_⟩
  · rw [OculusLayerQuad.quadUpdate_clipEnabled]
    simp [← EyeRect_IsDefault_iff]
  · rw [OculusLayerEquirect.equirectUpdate_clipEnabled]
    simp [← EyeRect_IsDefault_iff]
  · rw [OculusLayerQuad.quadUpdate_clipEnabled, OculusLayerQuad.quadUpdate_clipEnabled]
  · rw [OculusLayerEquirect.equirectUpdate_clipEnabled, OculusLayerEquirect.equirectUpdate_clipEnabled]

namespace DeviceDelegatePicoVR

theorem Create_sample : Create sampleCollaborators (some ()) = some sampleCreated := by
  rfl

theorem onCamera_setHeadOffset (s s1 : State) (k : Nat) (f : CameraEye → CameraEye)
    (h : s.onCamera k f = some s1) : s1.setHeadOffset = s.setHeadOffset := by
  unfold State.onCamera at h
  split at h
  · cases h; rfl
  · cases h

theorem UpdatePerspective_setHeadOffset (col : Collaborators) (s s1 : State)
    (h : s.UpdatePerspective col = some s1) : s1.setHeadOffset = s.setHeadOffset := by
  simp only [State.UpdatePerspective, Option.bind_eq_bind, Option.bind_eq_some] at h
  obtain ⟨a, ha, b, hb, hc⟩ := h
  have h1 := onCamera_setHeadOffset _ _ _ _ ha
  have h2 := onCamera_setHeadOffset _ _ _ _ hb
  split at hc <;> cases hc <;> simp [h1, h2]

theorem UpdateEyeTransform_setHeadOffset (col : Collaborators) (s s1 : State)
    (h : s.UpdateEyeTransform col = some s1) : s1.setHeadOffset = s.setHeadOffset := by
  simp only [State.UpdateEyeTransform, Option.bind_eq_bind, Option.bind_eq_some] at h
  obtain ⟨a, ha, b, hb, hc⟩ := h
  have h1 := onCamera_setHeadOffset _ _ _ _ ha
  have h2 := onCamera_setHeadOffset _ _ _ _ hb
  split at hc <;> cases hc <;> simp [h1, h2]

theorem Initialize_setHeadOffset (col : Collaborators) (s s1 : State)
    (h : s.Initialize col = some s1) : s1.setHeadOffset = s.setHeadOffset := by
  simp only [State.Initialize, Option.bind_eq_bind, Option.bind_eq_some] at h
  obtain ⟨_, _, a, ha, b, hb, hc⟩ := h
  have h1 := UpdatePerspective_setHeadOffset _ _ _ ha
  have h2 := UpdateEyeTransform_setHeadOffset _ _ _ hb
  cases hc
  simp [h1, h2]

theorem Create_setHeadOffset (col : Collaborators) (aContext : Option Unit) (s : State)
    (h : Create col aContext = some s) : s.setHeadOffset = true := by
  have := Initialize_setHeadOffset col _ s h
  simpa [State.construct] using this

theorem UpdatePosition_latched (s : State) (h : s.setHeadOffset = false)
    (ps : List vrb.Vector) :
    (ps.foldl UpdatePosition s).headOffset = s.headOffset ∧
    (ps.foldl UpdatePosition s).setHeadOffset = false ∧
    (ps.foldl UpdatePosition s).position = (ps.getLast?).getD s.position := by
  induction ps generalizing s with
  | nil => simp [h]
  | cons p ps ih =>
    have hstep : (UpdatePosition s p).setHeadOffset = false := by
      simp [UpdatePosition, h]
    have hoff : (UpdatePosition s p).headOffset = s.headOffset := by
      simp [UpdatePosition, h]
    have hpos : (UpdatePosition s p).position = p := by
      simp [UpdatePosition]
    obtain ⟨h1, h2, h3⟩ := ih (UpdatePosition s p) hstep
    refine ⟨by rw [List.foldl_cons, h1, hoff], by rw [List.foldl_cons, h2], ?_⟩
    rw [List.foldl_cons, h3, hpos]
    cases ps with
    | nil => simp
    | cons q qs =>
      simp [List.getLast?_cons_cons, List.getLast?_eq_getLast _ (List.cons_ne_nil q qs)]

/-- C3: the head offset is latched exactly once. From a state whose setHeadOffset flag is
still true, as in every freshly created device state, after the calls
UpdatePosition(p1), ..., UpdatePosition(pn) the stored headOffset is kAverageHeight - p1
however many samples follow p1, the flag is cleared, and the stored position is the last
sample. -/
theorem UpdatePosition_headOffset_latched_once (s : State) (h : s.setHeadOffset = true)
    (p1 : vrb.Vector) (rest : List vrb.Vector) :
    ((p1 :: rest).foldl UpdatePosition s).headOffset = kAverageHeight - p1 ∧
    ((p1 :: rest).foldl UpdatePosition s).setHeadOffset = false ∧
    ((p1 :: rest).foldl UpdatePosition s).position =
      (p1 :: rest).getLast (List.cons_ne_nil p1 rest) := by
  have hstep : (UpdatePosition s p1).setHeadOffset = false := by
    simp [UpdatePosition, h]
  have hoff : (UpdatePosition s p1).headOffset = kAverageHeight - p1 := by
    simp [UpdatePosition, h]
  have hpos : (UpdatePosition s p1).position = p1 := by
    simp [UpdatePosition]
  obtain ⟨h1, h2, h3⟩ := UpdatePosition_latched (UpdatePosition s p1) hstep rest
  refine ⟨by rw [List.foldl_cons, h1, hoff], by rw [List.foldl_cons, h2], ?_⟩
  rw [List.foldl_cons, h3, hpos]
  cases rest with
  | nil => simp
  | cons q qs =>
    simp [List.getLast?_eq_getLast _ (List.cons_ne_nil q qs), List.getLast_cons]

/-- C3 at a concrete input: the state built by Create, fed the samples (0, 1, 0) and
(5, 5, 5), keeps the offset of the first sample. -/
theorem UpdatePosition_headOffset_latched_once_witness :
    Create sampleCollaborators (some ()) = some sampleCreated ∧
    sampleCreated.setHeadOffset = true ∧
    (([⟨0, 1, 0⟩, ⟨5, 5, 5⟩] : List vrb.Vector).foldl UpdatePosition sampleCreated).headOffset
      = kAverageHeight - ⟨0, 1, 0⟩ :=
  ⟨Create_sample, rfl,
    (UpdatePosition_headOffset_latched_once sampleCreated rfl ⟨0, 1, 0⟩ [⟨5, 5, 5⟩]).1⟩

theorem slot_setSlot (s : State) (aIndex : Int) (c c1 : Controller)
    (h : s.slot aIndex = some c) : (s.setSlot aIndex c1).slot aIndex = some c1 := by
  unfold State.slot at *
  split at h
  · next h0 =>
    have hlt : aIndex.toNat < s.controllers.length := by
      rw [List.get?_eq_getElem?] at h
      exact (List.getElem?_eq_some.mp h).1
    simp [State.setSlot, h0, List.get?_eq_getElem?, List.getElem?_set_self, hlt]
  · cases h

theorem setSlot_call (s : State) (aIndex : Int) (c1 : Controller) (d : DelegateCall)
    (calls : List DelegateCall) (h : s.controllerDelegate = some calls) :
    (s.setSlot aIndex c1).call d =
      some { s.setSlot aIndex c1 with controllerDelegate := some (calls ++ [d]) } := by
  simp [State.call, State.setSlot, h]

/-- C4: for a valid slot UpdateControllerConnected makes the delegate calls SetLeftHanded,
SetEnabled and SetVisible exactly when the connected value differs from the enabled flag of
the slot; when it equals the flag no call is made and the state is unchanged, so repeating a
call with the same value makes no further call and changes nothing. -/
theorem UpdateControllerConnected_calls_only_on_transition (s : State) (aIndex : Int)
    (aConnected : Bool) (controller : Controller) (h : s.slot aIndex = some controller) :
    (∀ calls, s.controllerDelegate = some calls → controller.enabled ≠ aConnected →
      UpdateControllerConnected s aIndex aConnected =
        some { s.setSlot aIndex { controller with enabled := aConnected } with
          controllerDelegate := some (calls ++
            [DelegateCall.SetLeftHanded aIndex (!controller.IsRightHand),
             DelegateCall.SetEnabled aIndex aConnected,
             DelegateCall.SetVisible aIndex aConnected]) }) ∧
    (controller.enabled = aConnected → UpdateControllerConnected s aIndex aConnected = some s) ∧
    (∀ s1, UpdateControllerConnected s aIndex aConnected = some s1 →
      UpdateControllerConnected s1 aIndex aConnected = some s1) := by
  have hyes : ∀ calls, s.controllerDelegate = some calls → controller.enabled ≠ aConnected →
      UpdateControllerConnected s aIndex aConnected =
        some { s.setSlot aIndex { controller with enabled := aConnected } with
          controllerDelegate := some (calls ++
            [DelegateCall.SetLeftHanded aIndex (!controller.IsRightHand),
             DelegateCall.SetEnabled aIndex aConnected,
             DelegateCall.SetVisible aIndex aConnected]) } := by
    intro calls hd hne
    simp [UpdateControllerConnected, h, hne, State.call, State.setSlot, hd,
      Controller.IsRightHand]
  have hno : controller.enabled = aConnected →
      UpdateControllerConnected s aIndex aConnected = some s := by
    intro he
    simp [UpdateControllerConnected, h, he]
  refine ⟨hyes, hno, ?_⟩
  intro s1 h1
  by_cases he : controller.enabled = aConnected
  · rw [hno he] at h1
    cases h1
    exact hno he
  · cases hd : s.controllerDelegate with
    | none =>
      simp [UpdateControllerConnected, h, he, State.call, State.setSlot, hd] at h1
    | some calls =>
      rw [hyes calls hd he] at h1
      cases h1
      have hslot := slot_setSlot s aIndex controller { controller with enabled := aConnected } h
      have hslot2 : State.slot { s.setSlot aIndex { controller with enabled := aConnected } with
          controllerDelegate := some (calls ++
            [DelegateCall.SetLeftHanded aIndex (!controller.IsRightHand),
             DelegateCall.SetEnabled aIndex aConnected,
             DelegateCall.SetVisible aIndex aConnected]) } aIndex =
          some { controller with enabled := aConnected } := hslot
      simp [UpdateControllerConnected, hslot2]

/-- C4 at a concrete input: connecting slot 0 of the created sample state makes the three
calls, and connecting it again makes none. -/
theorem UpdateControllerConnected_calls_only_on_transition_witness :
    sampleWithDelegate.slot 0 =
      some { index := 0, hand := ElbowModel.HandEnum.Right, is6DoF := true } ∧
    (UpdateControllerConnected sampleWithDelegate 0 true).map State.controllerDelegate =
      some (some [DelegateCall.SetLeftHanded 0 false, DelegateCall.SetEnabled 0 true,
        DelegateCall.SetVisible 0 true]) ∧
    ((UpdateControllerConnected sampleWithDelegate 0 true).bind
        (fun s1 => UpdateControllerConnected s1 0 true)).map State.controllerDelegate =
      some (some [DelegateCall.SetLeftHanded 0 false, DelegateCall.SetEnabled 0 true,
        DelegateCall.SetVisible 0 true]) := by
  have hw := UpdateControllerConnected_calls_only_on_transition sampleWithDelegate 0 true
    { index := 0, hand := ElbowModel.HandEnum.Right, is6DoF := true } rfl
  have h1 := hw.1 [] rfl (by decide)
  refine ⟨rfl, ?_, ?_⟩
  · rw [h1]; rfl
  · rw [h1, Option.some_bind, hw.2.2 _ h1]; rfl

theorem UpdateControllersStep_foldl (col : Collaborators) (s : State)
    (l : List (Nat × Controller)) (calls : List DelegateCall) (pre : List DelegateCall) :
    l.foldl (State.UpdateControllersStep col)
        (some { s with controllerDelegate := some (calls ++ pre) }) =
      some { s with controllerDelegate := some (calls ++ pre ++ l.flatMap (fun entry =>
        if entry.2.enabled then s.UpdateControllerCalls col (entry.1 : Int) entry.2
        else [])) } := by
  induction l generalizing pre with
  | nil => simp
  | cons e l ih =>
    rw [List.foldl_cons]
    by_cases he : e.2.enabled = true
    · have hstep : State.UpdateControllersStep col
          (some { s with controllerDelegate := some (calls ++ pre) }) e =
          some { s with controllerDelegate := some (calls ++
            (pre ++ State.UpdateControllerCalls col s (e.1 : Int) e.2)) } := by
        simp [State.UpdateControllersStep, he, State.UpdateControllerCalls,
          State.controllerTransform]
      rw [hstep, ih]
      simp [List.flatMap_cons, he]
    · have he2 : e.2.enabled = false := by simpa using he
      have hstep : State.UpdateControllersStep col
          (some { s with controllerDelegate := some (calls ++ pre) }) e =
          some { s with controllerDelegate := some (calls ++ pre) } := by
        simp [State.UpdateControllersStep, he2]
      rw [hstep, ih]
      simp [List.flatMap_cons, he2]

/-- With a delegate attached, UpdateControllers returns, changes nothing but the record of
the delegate, and appends to it exactly frameCalls. -/
theorem UpdateControllers_eq (col : Collaborators) (s : State) (calls : List DelegateCall)
    (hd : s.controllerDelegate = some calls) :
    s.UpdateControllers col =
      some { s with controllerDelegate := some (calls ++ s.frameCalls col) } := by
  have h := UpdateControllersStep_foldl col s s.controllers.enum calls []
  have hs : ({ s with controllerDelegate := some (calls ++ []) } : State) = s := by
    cases s
    simp at hd
    simp [hd]
  rw [hs] at h
  simpa [State.UpdateControllers, State.frameCalls] using h

/-- The calls of an enabled slot are part of the calls of the frame. -/
theorem UpdateControllerCalls_subset_frameCalls (col : Collaborators) (s : State) (i : Nat)
    (c : Controller) (hslot : s.controllers[i]? = some c) (hen : c.enabled = true)
    (d : DelegateCall) (hd : d ∈ s.UpdateControllerCalls col (i : Int) c) :
    d ∈ s.frameCalls col := by
  unfold State.frameCalls
  rw [List.mem_flatMap]
  refine ⟨(i, c), List.mk_mem_enum_iff_getElem?.mpr hslot, ?_⟩
  simpa [hen] using hd

/-- Every call of the frame is a call of some enabled slot. -/
theorem frameCalls_origin (col : Collaborators) (s : State) (d : DelegateCall)
    (hd : d ∈ s.frameCalls col) :
    ∃ (j : Nat) (c : Controller), s.controllers[j]? = some c ∧ c.enabled = true ∧
      d ∈ s.UpdateControllerCalls col (j : Int) c := by
  unfold State.frameCalls at hd
  rw [List.mem_flatMap] at hd
  obtain ⟨⟨j, c⟩, hmem, hdc⟩ := hd
  refine ⟨j, c, List.mk_mem_enum_iff_getElem?.mp hmem, ?_⟩
  by_cases hen : c.enabled = true
  · exact ⟨hen, by simpa [hen] using hdc⟩
  · simp [hen] at hdc

/-- A SetButtonState call among the calls of slot j is one of the seven of the loop body. -/
theorem SetButtonState_mem_UpdateControllerCalls (col : Collaborators) (s : State) (j i : Int)
    (c : Controller) (b : ControllerDelegate.Button) (idx : Int) (p t : Bool)
    (trig : Option ℚ)
    (h : DelegateCall.SetButtonState i b idx p t trig ∈ s.UpdateControllerCalls col j c) :
    j = i ∧
    (b = ControllerDelegate.Button.BUTTON_A ∨ b = ControllerDelegate.Button.BUTTON_B ∨
      b = ControllerDelegate.Button.BUTTON_X ∨ b = ControllerDelegate.Button.BUTTON_Y →
      s.type = kTypeNeo2 ∧ trig = none ∧
      ((b = (if c.IsRightHand then ControllerDelegate.Button.BUTTON_A
              else ControllerDelegate.Button.BUTTON_X) ∧ idx = 3 ∧
          p = decide (Int.land c.buttonsState kButtonAX > 0) ∧
          t = decide (Int.land c.buttonsState kButtonAX > 0)) ∨
       (b = (if c.IsRightHand then ControllerDelegate.Button.BUTTON_B
              else ControllerDelegate.Button.BUTTON_Y) ∧ idx = 4 ∧
          p = decide (Int.land c.buttonsState kButtonBY > 0) ∧
          t = decide (Int.land c.buttonsState kButtonBY > 0)))) := by
  unfold State.UpdateControllerCalls at h
  by_cases hty : s.type = kTypeNeo2 <;> cases hr : c.IsRightHand <;>
    cases htouch : c.touched <;>
    simp [hty, hr, htouch] at h <;>
    rcases h with h | h | h | h | h | h | h <;>
    (try rcases h with ⟨rfl, rfl, rfl, rfl, rfl, rfl⟩) <;>
    simp_all

/-- C5 as stated fails: on a device whose type is not kTypeNeo2 the enabled right-hand
controller of slot 0 with both face-button bits set gets the calls listed here, and no
BUTTON_A or BUTTON_B call is among them. -/
theorem UpdateControllers_face_buttons_counterexample :
    sampleFaceButtonsG2.controllers[0]? =
      some sampleRightController ∧
    (State.UpdateControllers sampleCollaborators sampleFaceButtonsG2).map
        State.controllerDelegate =
      some (some
        [DelegateCall.SetCapabilityFlags 0 6,
         DelegateCall.SetButtonState 0 ControllerDelegate.Button.BUTTON_APP (-1) false false
           none,
         DelegateCall.SetButtonState 0 ControllerDelegate.Button.BUTTON_TOUCHPAD 0 false false
           none,
         DelegateCall.SetButtonState 0 ControllerDelegate.Button.BUTTON_TRIGGER 1 false false
           none,
         DelegateCall.SetAxes 0 [0.0, 0.0] 2,
         DelegateCall.EndTouch 0,
         DelegateCall.SetTransform 0 vrb.Matrix.Identity]) ∧
    ¬ (DelegateCall.SetButtonState 0 ControllerDelegate.Button.BUTTON_A 3 true true none ∈
        sampleFaceButtonsG2.frameCalls sampleCollaborators) ∧
    ¬ (DelegateCall.SetButtonState 0 ControllerDelegate.Button.BUTTON_B 4 true true none ∈
        sampleFaceButtonsG2.frameCalls sampleCollaborators) := by
  refine ⟨rfl, rfl, ?_, ?_⟩
  · intro h
    obtain ⟨j, c, _, _, hmem⟩ := frameCalls_origin _ _ _ h
    have := (SetButtonState_mem_UpdateControllerCalls _ _ _ _ _ _ _ _ _ _ hmem).2 (Or.inl rfl)
    exact absurd this.1 (by decide)
  · intro h
    obtain ⟨j, c, _, _, hmem⟩ := frameCalls_origin _ _ _ h
    have := (SetButtonState_mem_UpdateControllerCalls _ _ _ _ _ _ _ _ _ _ hmem).2
      (Or.inr (Or.inl rfl))
    exact absurd this.1 (by decide)

/-- C5 amended: when the device type is kTypeNeo2, UpdateControllers reports for every
enabled controller the face-button bits kButtonAX and kButtonBY as BUTTON_A and BUTTON_B if
the controller is right-handed and as BUTTON_X and BUTTON_Y if it is left-handed, with
pressed values that depend on the bitmask only; a face-button call for the slot is never
made under the label of the other hand, and for any other device type none is made. -/
theorem UpdateControllers_face_buttons_by_hand (col : Collaborators) (s : State)
    (calls : List DelegateCall) (i : Nat) (c : Controller)
    (hd : s.controllerDelegate = some calls) (hslot : s.controllers[i]? = some c)
    (hen : c.enabled = true) :
    s.UpdateControllers col =
      some { s with controllerDelegate := some (calls ++ s.frameCalls col) } ∧
    (s.type = kTypeNeo2 →
      DelegateCall.SetButtonState i
        (if c.IsRightHand then ControllerDelegate.Button.BUTTON_A
         else ControllerDelegate.Button.BUTTON_X) 3
        (decide (Int.land c.buttonsState kButtonAX > 0))
        (decide (Int.land c.buttonsState kButtonAX > 0)) none ∈ s.frameCalls col ∧
      DelegateCall.SetButtonState i
        (if c.IsRightHand then ControllerDelegate.Button.BUTTON_B
         else ControllerDelegate.Button.BUTTON_Y) 4
        (decide (Int.land c.buttonsState kButtonBY > 0))
        (decide (Int.land c.buttonsState kButtonBY > 0)) none ∈ s.frameCalls col) ∧
    (∀ (b : ControllerDelegate.Button) (idx : Int) (p t : Bool) (trig : Option ℚ),
      DelegateCall.SetButtonState i b idx p t trig ∈ s.frameCalls col →
      (b = ControllerDelegate.Button.BUTTON_A ∨ b = ControllerDelegate.Button.BUTTON_B ∨
        b = ControllerDelegate.Button.BUTTON_X ∨ b = ControllerDelegate.Button.BUTTON_Y) →
      s.type = kTypeNeo2 ∧
      ((b = (if c.IsRightHand then ControllerDelegate.Button.BUTTON_A
              else ControllerDelegate.Button.BUTTON_X) ∧ idx = 3 ∧
          p = decide (Int.land c.buttonsState kButtonAX > 0)) ∨
       (b = (if c.IsRightHand then ControllerDelegate.Button.BUTTON_B
              else ControllerDelegate.Button.BUTTON_Y) ∧ idx = 4 ∧
          p = decide (Int.land c.buttonsState kButtonBY > 0)))) := by
  refine ⟨UpdateControllers_eq col s calls hd, ?_, ?_⟩
  · intro hty
    constructor <;>
      apply UpdateControllerCalls_subset_frameCalls col s i c hslot hen <;>
      simp [State.UpdateControllerCalls, hty]
  · intro b idx p t trig hmem hface
    obtain ⟨j, c1, hj, _, hmem1⟩ := frameCalls_origin col s _ hmem
    obtain ⟨hji, hrest⟩ := SetButtonState_mem_UpdateControllerCalls _ _ _ _ _ _ _ _ _ _ hmem1
    have hjeq : j = i := by exact_mod_cast hji
    subst hjeq
    have hc : c1 = c := by
      rw [hj] at hslot
      exact Option.some.inj hslot
    subst hc
    obtain ⟨hty, _, hcase⟩ := hrest hface
    refine ⟨hty, ?_⟩
    rcases hcase with ⟨h1, h2, h3, _⟩ | ⟨h1, h2, h3, _⟩
    · exact Or.inl ⟨h1, h2, h3⟩
    · exact Or.inr ⟨h1, h2, h3⟩

/-- C5 amended, at a concrete input: a kTypeNeo2 device with the right-hand controller of
slot 0 enabled and both face-button bits set reports BUTTON_A and BUTTON_B pressed. -/
theorem UpdateControllers_face_buttons_by_hand_witness :
    sampleFaceButtonsNeo2.type = kTypeNeo2 ∧
    DelegateCall.SetButtonState 0 ControllerDelegate.Button.BUTTON_A 3 true true none ∈
      sampleFaceButtonsNeo2.frameCalls sampleCollaborators ∧
    DelegateCall.SetButtonState 0 ControllerDelegate.Button.BUTTON_B 4 true true none ∈
      sampleFaceButtonsNeo2.frameCalls sampleCollaborators :=
  ⟨rfl, (UpdateControllers_face_buttons_by_hand sampleCollaborators sampleFaceButtonsNeo2 [] 0
    sampleRightController rfl rfl rfl).2.1 rfl⟩

end DeviceDelegatePicoVR

theorem OculusLayerBase.baseDestroy_swapChain (self : OculusLayerBase) :
    self.Destroy.swapChain = none := by
  unfold OculusLayerBase.Destroy
  split
  · assumption
  · rfl

theorem OculusLayerBase.baseDestroy_of_null (self : OculusLayerBase) (h : self.swapChain = none) :
    self.Destroy = self := by
  unfold OculusLayerBase.Destroy
  simp [h]

theorem OculusLayerCube.cubeDestroy_swapChain (self : OculusLayerBase) :
    (OculusLayerCube.Destroy self).swapChain = none := by
  unfold OculusLayerCube.Destroy
  split
  · assumption
  · exact OculusLayerBase.baseDestroy_swapChain _

theorem OculusLayerEquirect.equirectDestroy_swapChain (self : OculusLayerEquirect) :
    self.Destroy.swapChain = none := by
  unfold OculusLayerEquirect.Destroy
  exact OculusLayerBase.baseDestroy_swapChain _

theorem OculusLayerEquirect.equirectDestroy_of_null (self : OculusLayerEquirect)
    (h : self.swapChain = none) : self.Destroy = self := by
  cases self with
  | mk base src =>
    cases base
    simp only at h
    subst h
    simp [OculusLayerEquirect.Destroy, OculusLayerBase.Destroy]

theorem LayerVariant.variantDestroy_swapChain (v : LayerVariant) : v.Destroy.swapChain = none := by
  cases v with
  | Quad self => exact OculusLayerBase.baseDestroy_swapChain self
  | Cylinder self => exact OculusLayerBase.baseDestroy_swapChain self
  | Cube self => exact OculusLayerCube.cubeDestroy_swapChain self
  | Equirect self => exact OculusLayerEquirect.equirectDestroy_swapChain self

theorem LayerVariant.variantDestroy_of_null (v : LayerVariant) (h : v.swapChain = none) :
    v.Destroy = v := by
  cases v with
  | Quad self =>
    simp only [LayerVariant.Destroy, OculusLayerSurface.Destroy]
    rw [OculusLayerBase.baseDestroy_of_null self h]
  | Cylinder self =>
    simp only [LayerVariant.Destroy, OculusLayerSurface.Destroy]
    rw [OculusLayerBase.baseDestroy_of_null self h]
  | Cube self =>
    have h1 : self.swapChain = none := h
    simp [LayerVariant.Destroy, OculusLayerCube.Destroy, h1]
  | Equirect self =>
    simp only [LayerVariant.Destroy]
    rw [OculusLayerEquirect.equirectDestroy_of_null self h]

/-- C7: for each of the four layer variants a second Destroy changes nothing after the
first, and Destroy on an instance that was never initialised (its swap-chain is null) is a
no-op. In particular OculusLayerCube::Destroy with a null swap-chain leaves the texture
handle and the loaded flag of the descriptor as they are, and after a second
OculusLayerEquirect::Destroy the swap-chain is null and the state is that after the
first. -/
theorem LayerVariant.Destroy_idempotent (v : LayerVariant) (cube : OculusLayerBase)
    (equirect : OculusLayerEquirect) :
    v.Destroy.Destroy = v.Destroy ∧
    (v.swapChain = none → v.Destroy = v) ∧
    (cube.swapChain = none →
      (OculusLayerCube.Destroy cube).layer.textureHandle = cube.layer.textureHandle ∧
      (OculusLayerCube.Destroy cube).layer.loaded = cube.layer.loaded ∧
      OculusLayerCube.Destroy cube = cube) ∧
    (equirect.Destroy.Destroy.swapChain = none ∧
      equirect.Destroy.Destroy = equirect.Destroy) := by
  refine ⟨LayerVariant.variantDestroy_of_null _ (LayerVariant.variantDestroy_swapChain v),
    LayerVariant.variantDestroy_of_null v, fun h => ?_, ?_, ?_⟩
  · simp [OculusLayerCube.Destroy, h]
  · exact OculusLayerEquirect.equirectDestroy_swapChain _
  · exact OculusLayerEquirect.equirectDestroy_of_null _ (OculusLayerEquirect.equirectDestroy_swapChain _)

/-- C7 at a concrete input: Destroy on a cube layer that was never initialised returns it
unchanged, texture handle 5 and loaded flag included. -/
theorem LayerVariant.Destroy_idempotent_witness :
    (LayerVariant.Cube sampleNeverInitialized).swapChain = none ∧
    (LayerVariant.Cube sampleNeverInitialized).Destroy =
      LayerVariant.Cube sampleNeverInitialized ∧
    (OculusLayerCube.Destroy sampleNeverInitialized).layer.textureHandle = 5 :=
  ⟨rfl,
   (LayerVariant.Destroy_idempotent (LayerVariant.Cube sampleNeverInitialized)
      sampleNeverInitialized sampleStaleEquirect).2.1 rfl,
   ((LayerVariant.Destroy_idempotent (LayerVariant.Cube sampleNeverInitialized)
      sampleNeverInitialized sampleStaleEquirect).2.2.1 rfl).1⟩

theorem OculusLayerEquirect.Update_of_dead_source (ext : Externals)
    (self : OculusLayerEquirect) (h : self.sourceLayer = none) (aTracking : ovrTracking2)
    (aClearSwapChain : SwapChainPtr) :
    (self.Update ext aTracking aClearSwapChain).swapChain = self.swapChain ∧
    (self.Update ext aTracking aClearSwapChain).sourceLayer = none ∧
    ∀ i, ((self.Update ext aTracking aClearSwapChain).ovrLayer.Textures i).ColorSwapChain =
      self.GetTargetSwapChain aClearSwapChain := by
  refine ⟨?_, ?_, fun i => ?_⟩
  · simp [OculusLayerEquirect.Update, h, finRange_eye, OculusLayerEquirect.UpdateEye,
      OculusLayerBase.Update, OculusLayerBase.SetClipEnabled, OculusLayerBase.setTexture]
  · simp [OculusLayerEquirect.Update, h]
  · fin_cases i <;>
      simp [OculusLayerEquirect.Update, h, finRange_eye, OculusLayerEquirect.UpdateEye,
        OculusLayerBase.Update, OculusLayerBase.SetClipEnabled, OculusLayerBase.setTexture,
        OculusLayerBase.GetTargetSwapChain]

/-- C8 as stated fails: an equirect layer that holds swap-chain 7 from an earlier Init and
whose source is gone keeps that handle through Update with clear swap-chain 9, and writes 7,
not 9, as the colour swap-chain of both eyes. -/
theorem OculusLayerEquirect.Update_dead_source_counterexample :
    sampleStaleEquirect.sourceLayer = none ∧
    (sampleStaleEquirect.Update sampleExternals ⟨⟨⟨0, 0, 0, 1⟩, ⟨0, 0, 0⟩⟩⟩ (some 9)).swapChain
      = some 7 ∧
    (∀ i, ((sampleStaleEquirect.Update sampleExternals ⟨⟨⟨0, 0, 0, 1⟩, ⟨0, 0, 0⟩⟩⟩
      (some 9)).ovrLayer.Textures i).ColorSwapChain = some 7) ∧
    ¬ (∀ i, ((sampleStaleEquirect.Update sampleExternals ⟨⟨⟨0, 0, 0, 1⟩, ⟨0, 0, 0⟩⟩⟩
      (some 9)).ovrLayer.Textures i).ColorSwapChain = some 9) := by
  have h := OculusLayerEquirect.Update_of_dead_source sampleExternals sampleStaleEquirect rfl
    ⟨⟨⟨0, 0, 0, 1⟩, ⟨0, 0, 0⟩⟩⟩ (some 9)
  refine ⟨rfl, h.1, fun i => ?_, fun hall => ?_⟩
  · rw [h.2.2 i]; rfl
  · have h9 := hall 0
    rw [h.2.2 0] at h9
    exact absurd h9 (by decide)

/-- C8 amended: if the source layer is gone at the time of OculusLayerEquirect::Update, the
update leaves the swap-chain member as the earlier Init or Update cached it, and the colour
swap-chain written for both eyes is GetTargetSwapChain(aClearSwapChain) for that member: the
cached handle when there is one, the fallback clear swap-chain when the member is null. The
layer is then kept from being drawn by IsDrawRequested, which is false. -/
theorem OculusLayerEquirect.Update_dead_source_keeps_cached (ext : Externals)
    (self : OculusLayerEquirect) (aTracking : ovrTracking2) (aClearSwapChain : SwapChainPtr)
    (h : self.sourceLayer = none) :
    (self.Update ext aTracking aClearSwapChain).swapChain = self.swapChain ∧
    (∀ i, ((self.Update ext aTracking aClearSwapChain).ovrLayer.Textures i).ColorSwapChain =
      self.GetTargetSwapChain aClearSwapChain) ∧
    (∀ sc, self.swapChain = some sc →
      ∀ i, ((self.Update ext aTracking aClearSwapChain).ovrLayer.Textures i).ColorSwapChain =
        some sc) ∧
    (self.swapChain = none →
      ∀ i, ((self.Update ext aTracking aClearSwapChain).ovrLayer.Textures i).ColorSwapChain =
        aClearSwapChain) ∧
    (self.Update ext aTracking aClearSwapChain).IsDrawRequested = false := by
  obtain ⟨h1, h2, h3⟩ :=
    OculusLayerEquirect.Update_of_dead_source ext self h aTracking aClearSwapChain
  refine ⟨h1, h3, fun sc hsc i => ?_, fun hnone i => ?_, ?_⟩
  · rw [h3 i]; simp [OculusLayerBase.GetTargetSwapChain, hsc]
  · rw [h3 i]; simp [OculusLayerBase.GetTargetSwapChain, hnone]
  · simp [OculusLayerEquirect.IsDrawRequested, h2]

/-- C8 amended, at a concrete input: the stale sample layer keeps swap-chain 7 through
Update and is not requested for drawing. -/
theorem OculusLayerEquirect.Update_dead_source_keeps_cached_witness :
    sampleStaleEquirect.sourceLayer = none ∧
    (sampleStaleEquirect.Update sampleExternals ⟨⟨⟨0, 0, 0, 1⟩, ⟨0, 0, 0⟩⟩⟩ (some 9)).swapChain
      = sampleStaleEquirect.swapChain ∧
    (sampleStaleEquirect.Update sampleExternals ⟨⟨⟨0, 0, 0, 1⟩, ⟨0, 0, 0⟩⟩⟩
      (some 9)).IsDrawRequested = false :=
  ⟨rfl,
   (OculusLayerEquirect.Update_dead_source_keeps_cached sampleExternals sampleStaleEquirect
      ⟨⟨⟨0, 0, 0, 1⟩, ⟨0, 0, 0⟩⟩⟩ (some 9) rfl).1,
   (OculusLayerEquirect.Update_dead_source_keeps_cached sampleExternals sampleStaleEquirect
      ⟨⟨⟨0, 0, 0, 1⟩, ⟨0, 0, 0⟩⟩⟩ (some 9) rfl).2.2.2.2⟩

namespace DeviceDelegatePicoVR

/-- A SetTransform call among the calls of slot j is the one that ends the loop body. -/
theorem SetTransform_mem_UpdateControllerCalls (col : Collaborators) (s : State) (j i : Int)
    (c : Controller) (m : vrb.Matrix)
    (h : DelegateCall.SetTransform i m ∈ s.UpdateControllerCalls col j c) :
    j = i ∧ m = s.controllerTransform col c := by
  unfold State.UpdateControllerCalls at h
  by_cases hty : s.type = kTypeNeo2 <;> cases htouch : c.touched <;>
    simp [hty, htouch] at h <;> exact ⟨h.1.symm, h.2⟩

theorem controllerTransform_sample :
    sampleLatchedG2.controllerTransform sampleCollaborators
      sampleRightController = vrb.Matrix.Identity := by
  rfl

theorem Translate_sample_ne_Identity :
    sampleCollaborators.Translate vrb.Matrix.Identity sampleLatchedG2.headOffset ≠
      vrb.Matrix.Identity := by
  intro h
  have h31 := congrFun (congrFun (congrArg vrb.Matrix.m h) 3) 1
  have hoff : sampleLatchedG2.headOffset.y = 7 / 10 := by
    show (1.7 : ℚ) - 1 = 7 / 10
    norm_num
  have h0 : sampleLatchedG2.headOffset.y = 0 := by
    simpa [sampleCollaborators, vrb.Matrix.Identity] using h31
  rw [hoff] at h0
  norm_num at h0

/-- C9 as stated fails: in StandAlone mode on a device whose type is not kTypeNeo2, the
enabled 6-DoF controller of slot 0 is sent the result of the elbow model, and the raw
transform translated by the latched head offset is not sent. -/
theorem UpdateControllers_transform_counterexample :
    sampleLatchedG2.renderMode = device.RenderMode.StandAlone ∧
    sampleLatchedG2.controllers[0]? =
      some sampleRightController ∧
    DelegateCall.SetTransform 0
      (sampleCollaborators.GetTransform ElbowModel.HandEnum.Right
        (sampleCollaborators.PreMultiply
          (sampleCollaborators.Rotation sampleLatchedG2.orientation)
          (sampleCollaborators.Position sampleLatchedG2.headOffset))
        vrb.Matrix.Identity) ∈ sampleLatchedG2.frameCalls sampleCollaborators ∧
    ¬ (DelegateCall.SetTransform 0
      (sampleCollaborators.Translate vrb.Matrix.Identity sampleLatchedG2.headOffset) ∈
        sampleLatchedG2.frameCalls sampleCollaborators) := by
  refine ⟨rfl, rfl, ?_, ?_⟩
  · have hmem : DelegateCall.SetTransform ((0 : Nat) : Int)
        (sampleLatchedG2.controllerTransform sampleCollaborators sampleRightController) ∈
        sampleLatchedG2.UpdateControllerCalls sampleCollaborators ((0 : Nat) : Int)
          sampleRightController := by
      simp [State.UpdateControllerCalls]
    exact UpdateControllerCalls_subset_frameCalls sampleCollaborators sampleLatchedG2 0
      sampleRightController rfl rfl _ hmem
  · intro h
    obtain ⟨j, c, hj, _, hmem⟩ := frameCalls_origin _ _ _ h
    obtain ⟨hji, hm⟩ := SetTransform_mem_UpdateControllerCalls _ _ _ _ _ _ hmem
    have hj0 : j = 0 := by exact_mod_cast hji
    subst hj0
    have hc : c = sampleRightController := by
      have h0 : sampleLatchedG2.controllers[0]? =
          some sampleRightController := rfl
      rw [hj] at h0
      exact Option.some.inj h0
    rw [hc, controllerTransform_sample] at hm
    exact Translate_sample_ne_Identity hm

/-- C9 amended: the transform UpdateControllers sends for an enabled controller is selected
by the device type and not by the is6DoF flag of the controller. In StandAlone render mode
it is, for a device type other than kTypeNeo2, the result of the elbow model for the hand,
the head matrix Rotation(orientation) pre-multiplied by Position(headOffset) and the raw
transform, and for the type kTypeNeo2 the raw transform translated by the latched
headOffset; in any other render mode it is the raw transform unchanged. -/
theorem UpdateControllers_transform_by_type (col : Collaborators) (s : State)
    (calls : List DelegateCall) (i : Nat) (c : Controller)
    (hd : s.controllerDelegate = some calls) (hslot : s.controllers[i]? = some c)
    (hen : c.enabled = true) :
    s.UpdateControllers col =
      some { s with controllerDelegate := some (calls ++ s.frameCalls col) } ∧
    DelegateCall.SetTransform i (s.controllerTransform col c) ∈ s.frameCalls col ∧
    (∀ m, DelegateCall.SetTransform i m ∈ s.frameCalls col → m = s.controllerTransform col c) ∧
    (∀ b, s.controllerTransform col { c with is6DoF := b } = s.controllerTransform col c) ∧
    (s.renderMode = device.RenderMode.StandAlone → s.type ≠ kTypeNeo2 →
      s.controllerTransform col c =
        col.GetTransform c.hand
          (col.PreMultiply (col.Rotation s.orientation) (col.Position s.headOffset))
          c.transform) ∧
    (s.renderMode = device.RenderMode.StandAlone → s.type = kTypeNeo2 →
      s.controllerTransform col c = col.Translate c.transform s.headOffset) ∧
    (s.renderMode ≠ device.RenderMode.StandAlone →
      s.controllerTransform col c = c.transform) := by
  refine ⟨UpdateControllers_eq col s calls hd, ?_, ?_, ?_, ?_, ?_, ?_⟩
  · apply UpdateControllerCalls_subset_frameCalls col s i c hslot hen
    simp [State.UpdateControllerCalls]
  · intro m hm
    obtain ⟨j, c1, hj, _, hmem⟩ := frameCalls_origin col s _ hm
    obtain ⟨hji, hmeq⟩ := SetTransform_mem_UpdateControllerCalls _ _ _ _ _ _ hmem
    have hjeq : j = i := by exact_mod_cast hji
    subst hjeq
    rw [hj] at hslot
    cases hslot
    exact hmeq
  · intro b
    rfl
  · intro hmode hty
    simp [State.controllerTransform, hmode, hty]
  · intro hmode hty
    simp [State.controllerTransform, hmode, hty]
  · intro hmode
    simp [State.controllerTransform, hmode]

/-- C9 amended, at a concrete input: on the sample device, whose type is not kTypeNeo2, the
enabled controller of slot 0 is sent the result of the elbow model. -/
theorem UpdateControllers_transform_by_type_witness :
    sampleLatchedG2.renderMode = device.RenderMode.StandAlone ∧
    sampleLatchedG2.type ≠ kTypeNeo2 ∧
    sampleLatchedG2.controllerTransform sampleCollaborators
      sampleRightController =
      sampleCollaborators.GetTransform ElbowModel.HandEnum.Right
        (sampleCollaborators.PreMultiply
          (sampleCollaborators.Rotation sampleLatchedG2.orientation)
          (sampleCollaborators.Position sampleLatchedG2.headOffset))
        vrb.Matrix.Identity :=
  ⟨rfl, by decide,
   (UpdateControllers_transform_by_type sampleCollaborators sampleLatchedG2 [] 0
      sampleRightController rfl rfl rfl).2.2.2.2.1 rfl (by decide)⟩

end DeviceDelegatePicoVR

theorem OculusLayerQuad.scaleMatrix_eq (w h : ℚ) :
    OculusLayerQuad.scaleMatrix w h =
      ⟨fun i j => if i = j then (if i = 0 then w / 2 else if i = 1 then h / 2 else 1)
        else 0⟩ := by
  unfold OculusLayerQuad.scaleMatrix vrb.Matrix.ScaleInPlace vrb.Matrix.Identity
  congr 1
  funext i j
  by_cases hij : i = j
  · subst hij
    fin_cases i <;> norm_num [Fin.ext_iff] <;> ring
  · simp [hij]

theorem OculusLayerQuad.Update_TexCoords (ext : Externals) (self : OculusLayerBase)
    (aTracking : ovrTracking2) (aClearSwapChain : SwapChainPtr)
    (i : Fin VRAPI_FRAME_LAYER_EYE_MAX) :
    ((OculusLayerQuad.Update ext self aTracking aClearSwapChain).ovrLayer.Textures
        i).TexCoordsFromTanAngles =
      ext.TanAngleMatrixFromUnitSquare (ovrMatrixFrom
        (ext.PostMultiply
          (ext.PostMultiply (self.layer.view (eyeOf i)) (self.layer.modelTransform (eyeOf i)))
          (OculusLayerQuad.scaleMatrix self.layer.worldWidth self.layer.worldHeight))) := by
  fin_cases i <;>
    simp [OculusLayerQuad.Update, finRange_eye, OculusLayerQuad.UpdateEye,
      OculusLayerQuad.eyeMatrix, OculusLayerSurface.Update, OculusLayerBase.Update,
      OculusLayerBase.SetClipEnabled, OculusLayerBase.setTexture, eyeOf]

/-- C10: the scale matrix that OculusLayerQuad::Update post-multiplies onto
view(eye) * modelTransform(eye) is diag(w/2, h/2, 1) for the world size (w, h) of the layer,
the same matrix for both eyes; for world width 2 and world height 1 its diagonal is
(1.0, 0.5, 1.0). -/
theorem OculusLayerQuad.Update_scale_is_half_world_size (ext : Externals)
    (self : OculusLayerBase) (aTracking : ovrTracking2) (aClearSwapChain : SwapChainPtr) :
    (∀ i : Fin VRAPI_FRAME_LAYER_EYE_MAX,
      ((OculusLayerQuad.Update ext self aTracking aClearSwapChain).ovrLayer.Textures
          i).TexCoordsFromTanAngles =
        ext.TanAngleMatrixFromUnitSquare (ovrMatrixFrom
          (ext.PostMultiply
            (ext.PostMultiply (self.layer.view (eyeOf i))
              (self.layer.modelTransform (eyeOf i)))
            ⟨fun r c =>
              if r = c then
                (if r = 0 then self.layer.worldWidth / 2
                 else if r = 1 then self.layer.worldHeight / 2 else 1)
              else 0⟩))) ∧
    (∀ w h : ℚ, OculusLayerQuad.scaleMatrix w h =
      ⟨fun r c => if r = c then (if r = 0 then w / 2 else if r = 1 then h / 2 else 1)
        else 0⟩) ∧
    ((OculusLayerQuad.scaleMatrix 2 1).At 0 0 = 1.0 ∧
      (OculusLayerQuad.scaleMatrix 2 1).At 1 1 = 0.5 ∧
      (OculusLayerQuad.scaleMatrix 2 1).At 2 2 = 1.0) := by
  refine ⟨fun i => ?_, OculusLayerQuad.scaleMatrix_eq, ?_⟩
  · rw [OculusLayerQuad.Update_TexCoords, OculusLayerQuad.scaleMatrix_eq]
  · rw [OculusLayerQuad.scaleMatrix_eq]
    refine ⟨?_, ?_, ?_⟩ <;> norm_num [vrb.Matrix.At, Fin.ext_iff]

namespace DeviceDelegatePicoVR

/-- Every call of the loop body for slot j carries the index j. -/
theorem UpdateControllerCalls_controllerIndex (col : Collaborators) (s : State) (j : Int)
    (c : Controller) (d : DelegateCall) (h : d ∈ s.UpdateControllerCalls col j c) :
    d.controllerIndex = j := by
  revert d
  unfold State.UpdateControllerCalls
  by_cases hty : s.type = kTypeNeo2 <;> cases htouch : c.touched <;>
    simp [hty, htouch, DelegateCall.controllerIndex]

/-- A SetCapabilityFlags call among the calls of slot j is the one that opens the loop
body. -/
theorem SetCapabilityFlags_mem_UpdateControllerCalls (col : Collaborators) (s : State)
    (j i : Int) (c : Controller) (flags : device.CapabilityFlags)
    (h : DelegateCall.SetCapabilityFlags i flags ∈ s.UpdateControllerCalls col j c) :
    j = i ∧
    flags = (if c.is6DoF then device.Orientation ||| device.Position
             else device.Orientation) := by
  unfold State.UpdateControllerCalls at h
  by_cases hty : s.type = kTypeNeo2 <;> cases htouch : c.touched <;>
    simp [hty, htouch] at h <;> exact ⟨h.1.symm, h.2⟩

theorem onCamera_controllers (s s1 : State) (k : Nat) (f : CameraEye → CameraEye)
    (h : s.onCamera k f = some s1) :
    s1.controllers = s.controllers ∧ s1.controllerDelegate = s.controllerDelegate := by
  unfold State.onCamera at h
  split at h
  · cases h; exact ⟨rfl, rfl⟩
  · cases h

theorem UpdatePerspective_controllers (col : Collaborators) (s s1 : State)
    (h : s.UpdatePerspective col = some s1) :
    s1.controllers = s.controllers ∧ s1.controllerDelegate = s.controllerDelegate := by
  simp only [State.UpdatePerspective, Option.bind_eq_bind, Option.bind_eq_some] at h
  obtain ⟨a, ha, b, hb, hc⟩ := h
  have h1 := onCamera_controllers _ _ _ _ ha
  have h2 := onCamera_controllers _ _ _ _ hb
  split at hc <;> cases hc <;> simp [h1, h2]

theorem UpdateEyeTransform_controllers (col : Collaborators) (s s1 : State)
    (h : s.UpdateEyeTransform col = some s1) :
    s1.controllers = s.controllers ∧ s1.controllerDelegate = s.controllerDelegate := by
  simp only [State.UpdateEyeTransform, Option.bind_eq_bind, Option.bind_eq_some] at h
  obtain ⟨a, ha, b, hb, hc⟩ := h
  have h1 := onCamera_controllers _ _ _ _ ha
  have h2 := onCamera_controllers _ _ _ _ hb
  split at hc <;> cases hc <;> simp [h1, h2]

theorem Initialize_controllers (col : Collaborators) (s s1 : State)
    (h : s.Initialize col = some s1) :
    s1.controllers =
      (List.range kMaxControllerCount).foldl State.InitializeController s.controllers ∧
    s1.controllerDelegate = s.controllerDelegate := by
  simp only [State.Initialize, Option.bind_eq_bind, Option.bind_eq_some] at h
  obtain ⟨_, _, a, ha, b, hb, hc⟩ := h
  have h1 := UpdatePerspective_controllers _ _ _ ha
  have h2 := UpdateEyeTransform_controllers _ _ _ hb
  cases hc
  simp [h1, h2]

/-- The controller array of every state built by Create: slot 0 has index 0 and the right
hand, slot 1 has index 1 and the left hand, both are 6-DoF and not enabled, and no delegate
is attached yet. -/
theorem Create_controllers (col : Collaborators) (aContext : Option Unit) (s : State)
    (h : Create col aContext = some s) :
    s.controllers =
      [{ index := 0, hand := ElbowModel.HandEnum.Right, is6DoF := true },
       { index := 1, hand := ElbowModel.HandEnum.Left, is6DoF := true }] ∧
    s.controllerDelegate = none := by
  obtain ⟨h1, h2⟩ := Initialize_controllers col _ s h
  refine ⟨?_, by rw [h2]; rfl⟩
  rw [h1]
  rfl

theorem setSlot_setSlot (s : State) (aIndex : Int) (c1 c2 : Controller) :
    (s.setSlot aIndex c1).setSlot aIndex c2 = s.setSlot aIndex c2 := by
  simp [State.setSlot, List.set_set]

/-- UpdateControllerPose on a valid slot returns, and stores the transform built from the
arguments and the flag a6Dof in that slot. -/
theorem UpdateControllerPose_eq (col : Collaborators) (s : State) (aIndex : Int)
    (a6Dof : Bool) (aPosition : vrb.Vector) (aRotation : vrb.Quaternion) (c : Controller)
    (h : s.slot aIndex = some c) :
    UpdateControllerPose col s aIndex a6Dof aPosition aRotation =
      some (s.setSlot aIndex { c with
        transform := col.PreMultiply
          (col.Rotation ⟨-aRotation.x, -aRotation.y, aRotation.z, aRotation.w⟩)
          (col.Position aPosition),
        is6DoF := a6Dof }) := by
  have h2 := slot_setSlot s aIndex c { c with
    transform := col.PreMultiply
      (col.Rotation ⟨-aRotation.x, -aRotation.y, aRotation.z, aRotation.w⟩)
      (col.Position aPosition) } h
  simp only [UpdateControllerPose, h, Option.bind_eq_bind, Option.some_bind, h2,
    setSlot_setSlot]

/-- UpdateControllerButtons on a valid slot returns, and stores its arguments in that slot. -/
theorem UpdateControllerButtons_eq (s : State) (aIndex : Int) (aButtonsState : Int)
    (aGrip axisX axisY : ℚ) (touched : Bool) (c : Controller)
    (h : s.slot aIndex = some c) :
    UpdateControllerButtons s aIndex aButtonsState aGrip axisX axisY touched =
      some (s.setSlot aIndex { c with
        buttonsState := aButtonsState, grip := aGrip, axisX := axisX, axisY := axisY,
        touched := touched }) := by
  simp only [UpdateControllerButtons, h, Option.bind_eq_bind, Option.some_bind]

theorem slot_of_getElem? (s : State) (i : Nat) (c : Controller)
    (h : s.controllers[i]? = some c) : s.slot (i : Int) = some c := by
  simp [State.slot, List.get?_eq_getElem?, h]

theorem getElem?_of_slot_natCast (s : State) (i : Nat) (c : Controller)
    (h : s.slot (i : Int) = some c) : s.controllers[i]? = some c := by
  simpa [State.slot, List.get?_eq_getElem?] using h

/-- C11: for every enabled controller the capability flags UpdateControllers sends to the
delegate contain Orientation, and contain Position exactly when the controller is 6-DoF,
where is6DoF is the value the last UpdateControllerPose stored, or true right after
Initialize; for a controller that is not enabled UpdateControllers makes no delegate call
at all. -/
theorem UpdateControllers_capability_flags (col : Collaborators) (s : State)
    (calls : List DelegateCall) (i : Nat) (c : Controller)
    (hd : s.controllerDelegate = some calls) (hslot : s.controllers[i]? = some c) :
    s.UpdateControllers col =
      some { s with controllerDelegate := some (calls ++ s.frameCalls col) } ∧
    (c.enabled = true →
      DelegateCall.SetCapabilityFlags i
        (if c.is6DoF then device.Orientation ||| device.Position else device.Orientation) ∈
          s.frameCalls col ∧
      ∀ flags, DelegateCall.SetCapabilityFlags i flags ∈ s.frameCalls col →
        flags &&& device.Orientation = device.Orientation ∧
        (flags &&& device.Position = device.Position ↔ c.is6DoF = true)) ∧
    (c.enabled = false → ∀ d ∈ s.frameCalls col, d.controllerIndex ≠ (i : Int)) ∧
    (∀ a6Dof aPosition aRotation, ∃ s1 c1,
      UpdateControllerPose col s i a6Dof aPosition aRotation = some s1 ∧
      s1.slot i = some c1 ∧ c1.is6DoF = a6Dof) ∧
    (∀ aContext s0, Create col aContext = some s0 →
      ∀ c0 ∈ s0.controllers, c0.is6DoF = true) := by
  refine ⟨UpdateControllers_eq col s calls hd, ?_, ?_, ?_, ?_⟩
  · intro hen
    constructor
    · apply UpdateControllerCalls_subset_frameCalls col s i c hslot hen
      simp [State.UpdateControllerCalls]
    · intro flags hmem
      obtain ⟨j, c1, hj, _, hmem1⟩ := frameCalls_origin col s _ hmem
      obtain ⟨hji, hflags⟩ := SetCapabilityFlags_mem_UpdateControllerCalls _ _ _ _ _ _ hmem1
      have hjeq : j = i := by exact_mod_cast hji
      subst hjeq
      rw [hj] at hslot
      cases hslot
      subst hflags
      cases h6 : c.is6DoF <;> simp <;> decide
  · intro hdis d hmem hidx
    obtain ⟨j, c1, hj, hen1, hmem1⟩ := frameCalls_origin col s _ hmem
    have hdj := UpdateControllerCalls_controllerIndex _ _ _ _ _ hmem1
    rw [hidx] at hdj
    have hjeq : i = j := by exact_mod_cast hdj
    subst hjeq
    rw [hj] at hslot
    cases hslot
    rw [hdis] at hen1
    cases hen1
  · intro a6Dof aPosition aRotation
    have hs := slot_of_getElem? s i c hslot
    exact ⟨_, _, UpdateControllerPose_eq col s i a6Dof aPosition aRotation c hs,
      slot_setSlot s i c _ hs, rfl⟩
  · intro aContext s0 hcreate c0 hc0
    rw [(Create_controllers col aContext s0 hcreate).1] at hc0
    simp at hc0
    rcases hc0 with rfl | rfl <;> rfl

/-- C11 at a concrete input: in the sample state the enabled 6-DoF controller of slot 0 is
sent the flags Orientation and Position, and no call is made for slot 1, which is not
enabled. -/
theorem UpdateControllers_capability_flags_witness :
    sampleFaceButtonsG2.controllers[0]? = some sampleRightController ∧
    DelegateCall.SetCapabilityFlags 0 (device.Orientation ||| device.Position) ∈
      sampleFaceButtonsG2.frameCalls sampleCollaborators ∧
    (∀ d ∈ sampleFaceButtonsG2.frameCalls sampleCollaborators, d.controllerIndex ≠ 1) :=
  ⟨rfl,
   ((UpdateControllers_capability_flags sampleCollaborators sampleFaceButtonsG2 [] 0
      sampleRightController rfl rfl).2.1 rfl).1,
   (UpdateControllers_capability_flags sampleCollaborators sampleFaceButtonsG2 [] 1
      { index := 1, hand := ElbowModel.HandEnum.Left, is6DoF := true } rfl rfl).2.2.1 rfl⟩

/-- The loop body for slot j makes exactly one touch call for the index j and none for any
other index. -/
theorem countP_isTouchCallFor_UpdateControllerCalls (col : Collaborators) (s : State)
    (i j : Int) (c : Controller) :
    (s.UpdateControllerCalls col j c).countP (DelegateCall.isTouchCallFor i) =
      if j = i then 1 else 0 := by
  unfold State.UpdateControllerCalls
  by_cases hty : s.type = kTypeNeo2 <;> cases htouch : c.touched <;>
    by_cases hji : j = i <;>
    simp [hty, htouch, hji, List.countP_cons, DelegateCall.isTouchCallFor]

/-- Summed over the slots from position n on, the enabled slot of index i counts once. -/
theorem sum_enumFrom_enabled (i : Nat) (l : List Controller) (n : Nat) :
    ((l.enumFrom n).map (fun e =>
        if e.2.enabled then (if ((e.1 : Nat) : Int) = (i : Int) then 1 else 0) else 0)).sum =
      if n ≤ i then
        (match l[i - n]? with
         | some c => if c.enabled then 1 else 0
         | none => 0)
      else 0 := by
  induction l generalizing n with
  | nil => simp
  | cons a l ih =>
    rw [List.enumFrom_cons, List.map_cons, List.sum_cons, ih (n + 1)]
    rcases Nat.lt_trichotomy n i with hlt | heq | hgt
    · have h1 : n + 1 ≤ i := hlt
      have h2 : n ≤ i := Nat.le_of_lt hlt
      have h3 : ¬ ((n : Int) = (i : Int)) := by omega
      have h4 : i - n = (i - (n + 1)) + 1 := by omega
      simp only [h1, h2, h3, if_true, if_false]
      rw [h4, List.getElem?_cons_succ]
      simp
    · subst heq
      simp
    · have h1 : ¬ (n + 1 ≤ i) := by omega
      have h2 : ¬ (n ≤ i) := by omega
      have h3 : ¬ ((n : Int) = (i : Int)) := by omega
      simp [h1, h2, h3]

/-- One run of UpdateControllers makes, for the index of an enabled slot, exactly one touch
call. -/
theorem countP_isTouchCallFor_frameCalls (col : Collaborators) (s : State) (i : Nat)
    (c : Controller) (hslot : s.controllers[i]? = some c) (hen : c.enabled = true) :
    (s.frameCalls col).countP (DelegateCall.isTouchCallFor (i : Int)) = 1 := by
  unfold State.frameCalls
  rw [List.countP_flatMap]
  have hfun : (List.countP (DelegateCall.isTouchCallFor (i : Int)) ∘
      fun (entry : Nat × Controller) =>
        if entry.2.enabled then s.UpdateControllerCalls col (entry.1 : Int) entry.2 else []) =
      fun e => if e.2.enabled then (if ((e.1 : Nat) : Int) = (i : Int) then 1 else 0)
        else 0 := by
    funext e
    by_cases he : e.2.enabled = true
    · simp [he, countP_isTouchCallFor_UpdateControllerCalls]
    · simp [he]
  rw [hfun, List.enum, sum_enumFrom_enabled i s.controllers 0]
  simp [hslot, hen]

/-- A SetTouchPosition call among the calls of slot j carries the stored axis values and is
made only while the slot is touched. -/
theorem SetTouchPosition_mem_UpdateControllerCalls (col : Collaborators) (s : State)
    (j i : Int) (c : Controller) (x y : ℚ)
    (h : DelegateCall.SetTouchPosition i x y ∈ s.UpdateControllerCalls col j c) :
    j = i ∧ c.touched = true ∧ x = c.axisX ∧ y = c.axisY := by
  unfold State.UpdateControllerCalls at h
  by_cases hty : s.type = kTypeNeo2 <;> cases htouch : c.touched <;>
    simp [hty, htouch] at h <;> exact ⟨h.1.symm, rfl, h.2.1, h.2.2⟩

/-- An EndTouch call among the calls of slot j is made only while the slot is not touched. -/
theorem EndTouch_mem_UpdateControllerCalls (col : Collaborators) (s : State)
    (j i : Int) (c : Controller)
    (h : DelegateCall.EndTouch i ∈ s.UpdateControllerCalls col j c) :
    j = i ∧ c.touched = false := by
  unfold State.UpdateControllerCalls at h
  by_cases hty : s.type = kTypeNeo2 <;> cases htouch : c.touched <;>
    simp [hty, htouch] at h <;> exact ⟨h.symm, rfl⟩

/-- A SetAxes call among the calls of slot j carries two zeros. -/
theorem SetAxes_mem_UpdateControllerCalls (col : Collaborators) (s : State)
    (j i : Int) (c : Controller) (data : List ℚ) (len : Int)
    (h : DelegateCall.SetAxes i data len ∈ s.UpdateControllerCalls col j c) :
    j = i ∧ data = [0, 0] ∧ len = 2 := by
  unfold State.UpdateControllerCalls at h
  by_cases hty : s.type = kTypeNeo2 <;> cases htouch : c.touched <;>
    simp [hty, htouch, kNumAxes] at h <;>
    exact ⟨h.1.symm, by rw [h.2.1]; norm_num, h.2.2⟩

/-- A call of the frame made for the index of slot i comes from the loop body of slot i,
which is then enabled. -/
theorem frameCalls_origin_slot (col : Collaborators) (s : State) (i : Nat) (c : Controller)
    (hslot : s.controllers[i]? = some c) (d : DelegateCall) (hd : d ∈ s.frameCalls col)
    (hidx : d.controllerIndex = (i : Int)) :
    c.enabled = true ∧ d ∈ s.UpdateControllerCalls col (i : Int) c := by
  obtain ⟨j, c1, hj, hen1, hmem1⟩ := frameCalls_origin col s d hd
  have hdj := UpdateControllerCalls_controllerIndex _ _ _ _ _ hmem1
  rw [hidx] at hdj
  have hjeq : i = j := by exact_mod_cast hdj
  subst hjeq
  rw [hj] at hslot
  cases hslot
  exact ⟨hen1, hmem1⟩

/-- C12: for every enabled controller one run of UpdateControllers makes exactly one touch
call for its slot: SetTouchPosition with the stored axisX and axisY when the touched flag
is set, EndTouch when it is not; and whatever axisX and axisY are stored, the axes passed to
SetAxes are two zeros. -/
theorem UpdateControllers_touch_and_axes (col : Collaborators) (s : State)
    (calls : List DelegateCall) (i : Nat) (c : Controller)
    (hd : s.controllerDelegate = some calls) (hslot : s.controllers[i]? = some c)
    (hen : c.enabled = true) :
    s.UpdateControllers col =
      some { s with controllerDelegate := some (calls ++ s.frameCalls col) } ∧
    (s.frameCalls col).countP (DelegateCall.isTouchCallFor (i : Int)) = 1 ∧
    (c.touched = true →
      DelegateCall.SetTouchPosition i c.axisX c.axisY ∈ s.frameCalls col ∧
      DelegateCall.EndTouch i ∉ s.frameCalls col) ∧
    (c.touched = false →
      DelegateCall.EndTouch i ∈ s.frameCalls col ∧
      ∀ x y, DelegateCall.SetTouchPosition i x y ∉ s.frameCalls col) ∧
    (∀ x y, DelegateCall.SetTouchPosition i x y ∈ s.frameCalls col →
      c.touched = true ∧ x = c.axisX ∧ y = c.axisY) ∧
    DelegateCall.SetAxes i [0.0, 0.0] kNumAxes ∈ s.frameCalls col ∧
    (∀ data len, DelegateCall.SetAxes i data len ∈ s.frameCalls col →
      data = [0, 0] ∧ len = 2) := by
  have htp : ∀ x y, DelegateCall.SetTouchPosition i x y ∈ s.frameCalls col →
      c.touched = true ∧ x = c.axisX ∧ y = c.axisY := by
    intro x y hmem
    have h1 := (frameCalls_origin_slot col s i c hslot _ hmem rfl).2
    exact (SetTouchPosition_mem_UpdateControllerCalls _ _ _ _ _ _ _ h1).2
  have het : DelegateCall.EndTouch i ∈ s.frameCalls col → c.touched = false := by
    intro hmem
    have h1 := (frameCalls_origin_slot col s i c hslot _ hmem rfl).2
    exact (EndTouch_mem_UpdateControllerCalls _ _ _ _ _ h1).2
  refine ⟨UpdateControllers_eq col s calls hd,
    countP_isTouchCallFor_frameCalls col s i c hslot hen, ?_, ?_, htp, ?_, ?_⟩
  · intro ht
    constructor
    · apply UpdateControllerCalls_subset_frameCalls col s i c hslot hen
      simp [State.UpdateControllerCalls, ht]
    · intro hmem
      rw [het hmem] at ht
      cases ht
  · intro ht
    constructor
    · apply UpdateControllerCalls_subset_frameCalls col s i c hslot hen
      simp [State.UpdateControllerCalls, ht]
    · intro x y hmem
      rw [(htp x y hmem).1] at ht
      cases ht
  · apply UpdateControllerCalls_subset_frameCalls col s i c hslot hen
    simp [State.UpdateControllerCalls]
  · intro data len hmem
    have h1 := (frameCalls_origin_slot col s i c hslot _ hmem rfl).2
    exact (SetAxes_mem_UpdateControllerCalls _ _ _ _ _ _ _ h1).2

/-- C12 at a concrete input: the enabled and touched slot 0 of the sample state, with the
axis values (1/4, 3/4) stored, gets SetTouchPosition with these values, SetAxes with two
zeros, and one touch call in all. -/
theorem UpdateControllers_touch_and_axes_witness :
    sampleTouched.controllers[0]? =
      some { index := 0, enabled := true, touched := true, axisX := 1 / 4, axisY := 3 / 4,
             hand := ElbowModel.HandEnum.Right, is6DoF := true } ∧
    (sampleTouched.frameCalls sampleCollaborators).countP (DelegateCall.isTouchCallFor 0)
      = 1 ∧
    DelegateCall.SetTouchPosition 0 (1 / 4) (3 / 4) ∈
      sampleTouched.frameCalls sampleCollaborators ∧
    DelegateCall.SetAxes 0 [0.0, 0.0] kNumAxes ∈
      sampleTouched.frameCalls sampleCollaborators := by
  have hw := UpdateControllers_touch_and_axes sampleCollaborators sampleTouched [] 0
    { index := 0, enabled := true, touched := true, axisX := 1 / 4, axisY := 3 / 4,
      hand := ElbowModel.HandEnum.Right, is6DoF := true } rfl rfl rfl
  exact ⟨rfl, hw.2.1, (hw.2.2.1 rfl).1, hw.2.2.2.2.2.1⟩

theorem runOps_sample :
    runOps sampleCollaborators sampleCreated sampleOps = some sampleAfterOps := by
  rfl

theorem sampleAfterOps_controllers :
    sampleAfterOps.controllers.map Controller.slotKey =
      [(0, ElbowModel.HandEnum.Right), (1, ElbowModel.HandEnum.Left)] := by
  rfl

/-- Writing a controller with the same index and hand into a valid slot leaves the indices
and hands of the array as they are. -/
theorem setSlot_map_slotKey (s : State) (aIndex : Int) (c c1 : Controller)
    (h : s.slot aIndex = some c) (hk : c1.slotKey = c.slotKey) :
    (s.setSlot aIndex c1).controllers.map Controller.slotKey =
      s.controllers.map Controller.slotKey := by
  have hc : s.controllers[aIndex.toNat]? = some c := by
    unfold State.slot at h
    split at h
    · simpa [List.get?_eq_getElem?] using h
    · cases h
  have hlt : aIndex.toNat < s.controllers.length := (List.getElem?_eq_some.mp hc).1
  simp only [State.setSlot, List.map_set]
  apply List.ext_getElem?
  intro n
  by_cases hn : aIndex.toNat = n
  · subst hn
    have hget : s.controllers[aIndex.toNat] = c := (List.getElem?_eq_some.mp hc).2
    simp [List.getElem?_set, hlt, hk, hget]
  · simp [List.getElem?_set, hn]

theorem call_frame (s s1 : State) (d : DelegateCall) (h : s.call d = some s1) :
    s1.controllers = s.controllers ∧ s1.cameras = s.cameras ∧ s1.type = s.type ∧
      s1.controllerDelegate.isSome = true := by
  unfold State.call at h
  split at h
  · cases h
  · cases h
    exact ⟨rfl, rfl, rfl, rfl⟩

/-- UpdateControllerConnected on a valid slot, by cases: no transition, a transition without
a delegate, and a transition with a delegate attached. -/
theorem UpdateControllerConnected_cases (s : State) (aIndex : Int) (aConnected : Bool)
    (c : Controller) (hs : s.slot aIndex = some c) :
    UpdateControllerConnected s aIndex aConnected =
      if c.enabled = aConnected then some s
      else
        match s.controllerDelegate with
        | none => none
        | some calls =>
          some { s.setSlot aIndex { c with enabled := aConnected } with
            controllerDelegate := some (calls ++
              [DelegateCall.SetLeftHanded aIndex (!c.IsRightHand),
               DelegateCall.SetEnabled aIndex aConnected,
               DelegateCall.SetVisible aIndex aConnected]) } := by
  by_cases he : c.enabled = aConnected
  · simp [UpdateControllerConnected, hs, he]
  · cases hd : s.controllerDelegate <;>
      simp [UpdateControllerConnected, hs, he, State.call, State.setSlot, hd,
        Controller.IsRightHand]

theorem UpdateControllerConnected_slotKey (s s1 : State) (aIndex : Int) (aConnected : Bool)
    (h : UpdateControllerConnected s aIndex aConnected = some s1) :
    s1.controllers.map Controller.slotKey = s.controllers.map Controller.slotKey := by
  cases hs : s.slot aIndex with
  | none => simp [UpdateControllerConnected, hs] at h
  | some c =>
    rw [UpdateControllerConnected_cases s aIndex aConnected c hs] at h
    by_cases he : c.enabled = aConnected
    · simp only [he, if_true, Option.some.injEq] at h
      subst h
      rfl
    · simp only [he, if_false] at h
      cases hd : s.controllerDelegate with
      | none => simp [hd] at h
      | some calls =>
        simp only [hd, Option.some.injEq] at h
        subst h
        exact setSlot_map_slotKey s aIndex c _ hs rfl

theorem UpdateControllerPose_slotKey (col : Collaborators) (s s1 : State) (aIndex : Int)
    (a6Dof : Bool) (aPosition : vrb.Vector) (aRotation : vrb.Quaternion)
    (h : UpdateControllerPose col s aIndex a6Dof aPosition aRotation = some s1) :
    s1.controllers.map Controller.slotKey = s.controllers.map Controller.slotKey := by
  cases hs : s.slot aIndex with
  | none => simp [UpdateControllerPose, hs] at h
  | some c =>
    rw [UpdateControllerPose_eq col s aIndex a6Dof aPosition aRotation c hs] at h
    cases h
    exact setSlot_map_slotKey s aIndex c _ hs rfl

theorem UpdateControllerButtons_slotKey (s s1 : State) (aIndex : Int) (aButtonsState : Int)
    (aGrip axisX axisY : ℚ) (touched : Bool)
    (h : UpdateControllerButtons s aIndex aButtonsState aGrip axisX axisY touched = some s1) :
    s1.controllers.map Controller.slotKey = s.controllers.map Controller.slotKey := by
  cases hs : s.slot aIndex with
  | none => simp [UpdateControllerButtons, hs] at h
  | some c =>
    rw [UpdateControllerButtons_eq s aIndex aButtonsState aGrip axisX axisY touched c hs] at h
    cases h
    exact setSlot_map_slotKey s aIndex c _ hs rfl

theorem UpdateControllersStep_controllers (col : Collaborators)
    (l : List (Nat × Controller)) (acc : Option State) (r : State)
    (h : l.foldl (State.UpdateControllersStep col) acc = some r) :
    ∃ a, acc = some a ∧ r.controllers = a.controllers := by
  induction l generalizing acc with
  | nil => exact ⟨r, h, rfl⟩
  | cons e l ih =>
    rw [List.foldl_cons] at h
    obtain ⟨a1, ha1, hr⟩ := ih _ h
    cases acc with
    | none => simp [State.UpdateControllersStep] at ha1
    | some a =>
      refine ⟨a, rfl, ?_⟩
      rw [hr]
      unfold State.UpdateControllersStep at ha1
      simp only at ha1
      split at ha1
      · cases ha1; rfl
      · split at ha1
        · cases ha1
        · cases ha1; rfl

theorem UpdateControllers_controllers (col : Collaborators) (s s1 : State)
    (h : s.UpdateControllers col = some s1) : s1.controllers = s.controllers := by
  obtain ⟨a, ha, hr⟩ := UpdateControllersStep_controllers col _ _ _ h
  cases ha
  exact hr

theorem StartFrame_slotKey (col : Collaborators) (s s1 : State)
    (h : StartFrame col s = some s1) :
    s1.controllers.map Controller.slotKey = s.controllers.map Controller.slotKey := by
  simp only [StartFrame, Option.bind_eq_bind, Option.bind_eq_some] at h
  obtain ⟨a, ha, b, hb, hc⟩ := h
  rw [UpdateControllers_controllers col b s1 hc, (onCamera_controllers _ _ _ _ hb).1,
    (onCamera_controllers _ _ _ _ ha).1]

/-- One iteration of the loop of SetControllerDelegate, when it returns: the three calls go
to the delegate and the slot k is marked created. -/
theorem SetControllerDelegateStep_some (col : Collaborators) (a r : State) (k : Nat)
    (h : SetControllerDelegateStep col (some a) k = some r) :
    ∃ (c : Controller) (y : State), a.controllers[k]? = some c ∧
      y.controllers = a.controllers ∧
      y.cameras = a.cameras ∧ y.controllerDelegate.isSome = true ∧
      r = { y with controllers := y.controllers.set k { c with created := true } } := by
  unfold SetControllerDelegateStep at h
  simp only [Option.bind_eq_bind, Option.some_bind, List.get?_eq_getElem?] at h
  cases hck : a.controllers[k]? with
  | none => simp [hck] at h
  | some c =>
    simp only [hck, Option.some_bind] at h
    by_cases hty : a.type = kTypeNeo2
    · simp only [hty, if_true, Option.bind_eq_some] at h
      obtain ⟨x, hx, y, hy, z, hz, hr⟩ := h
      have fx := call_frame _ _ _ hx
      have fy := call_frame _ _ _ hy
      have fz := call_frame _ _ _ hz
      refine ⟨c, z, rfl, ?_, ?_, fz.2.2.2, ?_⟩
      · rw [fz.1, fy.1, fx.1]
      · rw [fz.2.1, fy.2.1, fx.2.1]
      · cases hr; rfl
    · simp only [hty, if_false, Option.bind_eq_some] at h
      obtain ⟨x, hx, y, hy, z, hz, hr⟩ := h
      have fx := call_frame _ _ _ hx
      have fy := call_frame _ _ _ hy
      have fz := call_frame _ _ _ hz
      refine ⟨c, z, rfl, ?_, ?_, fz.2.2.2, ?_⟩
      · rw [fz.1, fy.1, fx.1]
      · rw [fz.2.1, fy.2.1, fx.2.1]
      · cases hr; rfl

theorem SetControllerDelegateStep_slotKey (col : Collaborators) (acc : Option State)
    (k : Nat) (r : State) (h : SetControllerDelegateStep col acc k = some r) :
    ∃ a, acc = some a ∧
      r.controllers.map Controller.slotKey = a.controllers.map Controller.slotKey := by
  cases acc with
  | none => simp [SetControllerDelegateStep] at h
  | some a =>
    refine ⟨a, rfl, ?_⟩
    obtain ⟨c, y, hck, hctl, _, _, hr⟩ := SetControllerDelegateStep_some col a r k h
    subst hr
    have hlt : k < a.controllers.length := (List.getElem?_eq_some.mp hck).1
    have hget : a.controllers[k] = c := (List.getElem?_eq_some.mp hck).2
    simp only [hctl, List.map_set]
    apply List.ext_getElem?
    intro n
    by_cases hn : k = n
    · subst hn
      simp [List.getElem?_set, hlt, hget, Controller.slotKey]
    · simp [List.getElem?_set, hn]

theorem SetControllerDelegateStep_foldl_slotKey (col : Collaborators) (ks : List Nat)
    (acc : Option State) (r : State)
    (h : ks.foldl (SetControllerDelegateStep col) acc = some r) :
    ∃ a, acc = some a ∧
      r.controllers.map Controller.slotKey = a.controllers.map Controller.slotKey := by
  induction ks generalizing acc with
  | nil => exact ⟨r, h, rfl⟩
  | cons k ks ih =>
    rw [List.foldl_cons] at h
    obtain ⟨a1, ha1, hr⟩ := ih _ h
    obtain ⟨a, ha, hk⟩ := SetControllerDelegateStep_slotKey col acc k a1 ha1
    exact ⟨a, ha, by rw [hr, hk]⟩

theorem SetControllerDelegate_slotKey (col : Collaborators) (s s1 : State)
    (aController : Option (List DelegateCall))
    (h : SetControllerDelegate col s aController = some s1) :
    s1.controllers.map Controller.slotKey = s.controllers.map Controller.slotKey := by
  obtain ⟨a, ha, hr⟩ := SetControllerDelegateStep_foldl_slotKey col _ _ _ h
  cases ha
  exact hr

/-- No public operation changes the index or the hand of a controller slot, or the number
of slots. -/
theorem apply_slotKey (col : Collaborators) (s s1 : State) (op : Op)
    (h : op.apply col s = some s1) :
    s1.controllers.map Controller.slotKey = s.controllers.map Controller.slotKey := by
  cases op with
  | UpdateControllerConnected aIndex aConnected =>
    exact UpdateControllerConnected_slotKey s s1 aIndex aConnected h
  | UpdateControllerPose aIndex a6Dof aPosition aRotation =>
    exact UpdateControllerPose_slotKey col s s1 aIndex a6Dof aPosition aRotation h
  | UpdateControllerButtons aIndex aButtonsState aGrip axisX axisY touched =>
    exact UpdateControllerButtons_slotKey s s1 aIndex aButtonsState aGrip axisX axisY touched h
  | UpdatePosition aPosition =>
    cases h
    unfold UpdatePosition
    split <;> rfl
  | UpdateOrientation aOrientation => cases h; rfl
  | SetType aType => cases h; rfl
  | SetRenderMode aMode =>
    cases h
    unfold SetRenderMode
    split <;> rfl
  | Pause => cases h; rfl
  | Resume => cases h; rfl
  | StartFrame => exact StartFrame_slotKey col s s1 h
  | SetControllerDelegate aController =>
    exact SetControllerDelegate_slotKey col s s1 aController h

theorem runOps_slotKey (col : Collaborators) (ops : List Op) (s s1 : State)
    (h : runOps col s ops = some s1) :
    s1.controllers.map Controller.slotKey = s.controllers.map Controller.slotKey := by
  induction ops generalizing s with
  | nil =>
    cases h
    rfl
  | cons op ops ih =>
    simp only [runOps, Option.bind_eq_some] at h
    obtain ⟨a, ha, hr⟩ := h
    rw [ih a hr, apply_slotKey col s a op ha]

theorem Create_slotKey (col : Collaborators) (aContext : Option Unit) (s : State)
    (h : Create col aContext = some s) :
    s.controllers.map Controller.slotKey =
      [(0, ElbowModel.HandEnum.Right), (1, ElbowModel.HandEnum.Left)] := by
  rw [(Create_controllers col aContext s h).1]
  rfl

/-- What the indices and hands [(0, Right), (1, Left)] say about the array itself. -/
theorem slots_of_slotKey (s : State)
    (h : s.controllers.map Controller.slotKey =
      [(0, ElbowModel.HandEnum.Right), (1, ElbowModel.HandEnum.Left)]) :
    ∃ c0 c1, s.controllers = [c0, c1] ∧
      c0.index = 0 ∧ c0.hand = ElbowModel.HandEnum.Right ∧
      c1.index = 1 ∧ c1.hand = ElbowModel.HandEnum.Left := by
  cases hc : s.controllers with
  | nil => simp [hc] at h
  | cons c0 t =>
    cases t with
    | nil => simp [hc] at h
    | cons c1 t2 =>
      cases t2 with
      | nil =>
        simp only [hc, List.map_cons, List.map_nil, List.cons.injEq, Controller.slotKey,
          Prod.mk.injEq, and_true] at h
        exact ⟨c0, c1, rfl, h.1.1, h.1.2, h.2.1, h.2.2⟩
      | cons c2 t3 => simp [hc] at h

theorem ready_of_frame (s s1 : State) (hr : s.ready)
    (hd : s1.controllerDelegate.isSome = true) (hc : s1.cameras = s.cameras)
    (hl : s1.controllers.length = s.controllers.length) : s1.ready := by
  obtain ⟨_, h0, h1, h2⟩ := hr
  exact ⟨hd, by rw [hc]; exact h0, by rw [hc]; exact h1, by rw [hl]; exact h2⟩

theorem slot_of_valid (s : State) (aIndex : Int) (hr : s.ready)
    (hv : 0 ≤ aIndex ∧ aIndex < kMaxControllerCount) : ∃ c, s.slot aIndex = some c := by
  have hlen : s.controllers.length = 2 := hr.2.2.2
  have hlt : aIndex.toNat < s.controllers.length := by
    have h2 : aIndex < 2 := hv.2
    omega
  refine ⟨s.controllers[aIndex.toNat], ?_⟩
  simp [State.slot, hv.1, List.get?_eq_getElem?, List.getElem?_eq_getElem hlt]

theorem setSlot_ready (s : State) (aIndex : Int) (c : Controller) (hr : s.ready) :
    (s.setSlot aIndex c).ready :=
  ready_of_frame s _ hr hr.1 rfl (by simp [State.setSlot])

theorem onCamera_ready (s : State) (k : Nat) (f : CameraEye → CameraEye) (hr : s.ready)
    (hk : k < 2) : ∃ s1, s.onCamera k f = some s1 ∧ s1.ready := by
  obtain ⟨hd, ⟨cam0, h0⟩, ⟨cam1, h1⟩, hl⟩ := hr
  rw [List.get?_eq_getElem?] at h0 h1
  have hlt0 : 0 < s.cameras.length := (List.getElem?_eq_some.mp h0).1
  have hlt1 : 1 < s.cameras.length := (List.getElem?_eq_some.mp h1).1
  have hkk : k = 0 ∨ k = 1 := by omega
  rcases hkk with rfl | rfl
  · refine ⟨{ s with cameras := s.cameras.set 0 (some (f cam0)) },
      by simp [State.onCamera, List.get?_eq_getElem?, h0], hd, ⟨f cam0, ?_⟩, ⟨cam1, ?_⟩, hl⟩
    · simp [List.get?_eq_getElem?, List.getElem?_set, hlt0]
    · simpa [List.get?_eq_getElem?, List.getElem?_set] using h1
  · refine ⟨{ s with cameras := s.cameras.set 1 (some (f cam1)) },
      by simp [State.onCamera, List.get?_eq_getElem?, h1], hd, ⟨cam0, ?_⟩, ⟨f cam1, ?_⟩, hl⟩
    · simpa [List.get?_eq_getElem?, List.getElem?_set] using h0
    · simp [List.get?_eq_getElem?, List.getElem?_set, hlt1]

theorem cameras_then_UpdateControllers_ready (col : Collaborators) (s : State)
    (f g : CameraEye → CameraEye) (hr : s.ready) :
    ∃ s1, ((s.onCamera 0 f).bind fun a =>
        (a.onCamera 1 g).bind fun b => b.UpdateControllers col) = some s1 ∧ s1.ready := by
  obtain ⟨a, ha, hra⟩ := onCamera_ready s 0 f hr (by decide)
  obtain ⟨b, hb, hrb⟩ := onCamera_ready a 1 g hra (by decide)
  obtain ⟨calls, hcalls⟩ := Option.isSome_iff_exists.mp hrb.1
  refine ⟨{ b with controllerDelegate := some (calls ++ b.frameCalls col) }, ?_, ?_⟩
  · rw [ha, Option.some_bind, hb, Option.some_bind]
    exact UpdateControllers_eq col b calls hcalls
  · exact ready_of_frame b _ hrb rfl rfl rfl

theorem StartFrame_ready (col : Collaborators) (s : State) (hr : s.ready) :
    ∃ s1, StartFrame col s = some s1 ∧ s1.ready := by
  unfold StartFrame
  exact cameras_then_UpdateControllers_ready col s _ _ hr

theorem SetControllerDelegateStep_runs (col : Collaborators) (a : State) (k : Nat)
    (hd : a.controllerDelegate.isSome = true) (hk : k < a.controllers.length) :
    ∃ r, SetControllerDelegateStep col (some a) k = some r ∧
      r.controllerDelegate.isSome = true ∧ r.cameras = a.cameras ∧
      r.controllers.length = a.controllers.length := by
  obtain ⟨calls, hcalls⟩ := Option.isSome_iff_exists.mp hd
  have hck : a.controllers[k]? = some a.controllers[k] := List.getElem?_eq_getElem hk
  have hsome : (SetControllerDelegateStep col (some a) k).isSome = true := by
    by_cases hty : a.type = kTypeNeo2 <;>
      simp [SetControllerDelegateStep, List.get?_eq_getElem?, hck, hty, State.call, hcalls]
  obtain ⟨r, hr⟩ := Option.isSome_iff_exists.mp hsome
  obtain ⟨c, y, _, hctl, hcam, hdel, hry⟩ := SetControllerDelegateStep_some col a r k hr
  subst hry
  exact ⟨_, hr, hdel, hcam, by simp [hctl]⟩

theorem SetControllerDelegateStep_foldl_runs (col : Collaborators) (ks : List Nat)
    (a : State) (hd : a.controllerDelegate.isSome = true)
    (hks : ∀ k ∈ ks, k < a.controllers.length) :
    ∃ r, ks.foldl (SetControllerDelegateStep col) (some a) = some r ∧
      r.controllerDelegate.isSome = true ∧ r.cameras = a.cameras ∧
      r.controllers.length = a.controllers.length := by
  induction ks generalizing a with
  | nil => exact ⟨a, rfl, hd, rfl, rfl⟩
  | cons k ks ih =>
    obtain ⟨a1, ha1, hd1, hc1, hl1⟩ :=
      SetControllerDelegateStep_runs col a k hd (hks k (List.mem_cons_self k ks))
    obtain ⟨r, hr, hdr, hcr, hlr⟩ := ih a1 hd1
      (fun j hj => by rw [hl1]; exact hks j (List.mem_cons_of_mem k hj))
    exact ⟨r, by rw [List.foldl_cons, ha1, hr], hdr, by rw [hcr, hc1], by rw [hlr, hl1]⟩

theorem SetControllerDelegate_ready (col : Collaborators) (s : State)
    (calls : List DelegateCall)
    (hcam0 : ∃ cam, s.cameras.get? 0 = some (some cam))
    (hcam1 : ∃ cam, s.cameras.get? 1 = some (some cam))
    (hlen : s.controllers.length = kMaxControllerCount) :
    ∃ s1, SetControllerDelegate col s (some calls) = some s1 ∧ s1.ready := by
  obtain ⟨r, hr, hdr, hcr, hlr⟩ := SetControllerDelegateStep_foldl_runs col
    (List.range s.controllers.length) { s with controllerDelegate := some calls } rfl
    (fun k hk => List.mem_range.mp hk)
  exact ⟨r, hr, hdr, by rw [hcr]; exact hcam0, by rw [hcr]; exact hcam1,
    by rw [hlr]; exact hlen⟩

/-- A ready state runs every operation with valid arguments and stays ready. -/
theorem apply_ready (col : Collaborators) (s : State) (op : Op) (hr : s.ready)
    (hv : op.valid = true) : ∃ s1, op.apply col s = some s1 ∧ s1.ready := by
  cases op with
  | UpdateControllerConnected aIndex aConnected =>
    have hv1 : 0 ≤ aIndex ∧ aIndex < kMaxControllerCount := by simpa [Op.valid] using hv
    obtain ⟨c, hc⟩ := slot_of_valid s aIndex hr hv1
    obtain ⟨calls, hcalls⟩ := Option.isSome_iff_exists.mp hr.1
    simp only [Op.apply]
    rw [UpdateControllerConnected_cases s aIndex aConnected c hc]
    by_cases he : c.enabled = aConnected
    · rw [if_pos he]
      exact ⟨s, rfl, hr⟩
    · rw [if_neg he, hcalls]
      exact ⟨_, rfl, ready_of_frame s _ hr rfl rfl (by simp [State.setSlot])⟩
  | UpdateControllerPose aIndex a6Dof aPosition aRotation =>
    have hv1 : 0 ≤ aIndex ∧ aIndex < kMaxControllerCount := by simpa [Op.valid] using hv
    obtain ⟨c, hc⟩ := slot_of_valid s aIndex hr hv1
    exact ⟨_, UpdateControllerPose_eq col s aIndex a6Dof aPosition aRotation c hc,
      setSlot_ready s aIndex _ hr⟩
  | UpdateControllerButtons aIndex aButtonsState aGrip axisX axisY touched =>
    have hv1 : 0 ≤ aIndex ∧ aIndex < kMaxControllerCount := by simpa [Op.valid] using hv
    obtain ⟨c, hc⟩ := slot_of_valid s aIndex hr hv1
    exact ⟨_, UpdateControllerButtons_eq s aIndex aButtonsState aGrip axisX axisY touched c hc,
      setSlot_ready s aIndex _ hr⟩
  | UpdatePosition aPosition =>
    refine ⟨_, rfl, ready_of_frame s _ hr ?_ ?_ ?_⟩ <;>
      (unfold UpdatePosition; split) <;> first | exact hr.1 | rfl
  | UpdateOrientation aOrientation => exact ⟨_, rfl, ready_of_frame s _ hr hr.1 rfl rfl⟩
  | SetType aType => exact ⟨_, rfl, ready_of_frame s _ hr hr.1 rfl rfl⟩
  | SetRenderMode aMode =>
    refine ⟨_, rfl, ready_of_frame s _ hr ?_ ?_ ?_⟩ <;>
      (unfold SetRenderMode; split) <;> first | exact hr.1 | rfl
  | Pause => exact ⟨_, rfl, ready_of_frame s _ hr hr.1 rfl rfl⟩
  | Resume => exact ⟨_, rfl, ready_of_frame s _ hr hr.1 rfl rfl⟩
  | StartFrame => exact StartFrame_ready col s hr
  | SetControllerDelegate aController =>
    cases aController with
    | none => simp [Op.valid] at hv
    | some calls => exact SetControllerDelegate_ready col s calls hr.2.1 hr.2.2.1 hr.2.2.2

/-- Every sequence of operations with valid arguments runs to the end on a ready state. -/
theorem runOps_ready (col : Collaborators) (ops : List Op) (s : State) (hr : s.ready)
    (hv : ∀ op ∈ ops, op.valid = true) : ∃ s1, runOps col s ops = some s1 ∧ s1.ready := by
  induction ops generalizing s with
  | nil => exact ⟨s, rfl, hr⟩
  | cons op ops ih =>
    obtain ⟨a, ha, hra⟩ := apply_ready col s op hr (hv op (List.mem_cons_self op ops))
    obtain ⟨r, hrr, hrr2⟩ := ih a hra (fun o ho => hv o (List.mem_cons_of_mem op ho))
    exact ⟨r, by simp [runOps, ha, hrr], hrr2⟩

theorem onCamera_cameras (s s1 : State) (k j : Nat) (f : CameraEye → CameraEye)
    (h : s.onCamera k f = some s1) (hj : ∃ cam, s.cameras.get? j = some (some cam)) :
    ∃ cam, s1.cameras.get? j = some (some cam) := by
  unfold State.onCamera at h
  split at h
  · next cam hk =>
    cases h
    obtain ⟨camj, hcamj⟩ := hj
    rw [List.get?_eq_getElem?] at hk hcamj
    have hlt : k < s.cameras.length := (List.getElem?_eq_some.mp hk).1
    by_cases hkj : k = j
    · subst hkj
      exact ⟨f cam, by simp [List.get?_eq_getElem?, List.getElem?_set, hlt]⟩
    · exact ⟨camj, by simpa [List.get?_eq_getElem?, List.getElem?_set, hkj] using hcamj⟩
  · cases h

theorem UpdatePerspective_cameras (col : Collaborators) (s s1 : State) (j : Nat)
    (h : s.UpdatePerspective col = some s1)
    (hj : ∃ cam, s.cameras.get? j = some (some cam)) :
    ∃ cam, s1.cameras.get? j = some (some cam) := by
  simp only [State.UpdatePerspective, Option.bind_eq_bind, Option.bind_eq_some] at h
  obtain ⟨a, ha, b, hb, hc⟩ := h
  have h1 := onCamera_cameras _ _ _ j _ ha hj
  have h2 := onCamera_cameras _ _ _ j _ hb h1
  split at hc <;> cases hc <;> exact h2

theorem UpdateEyeTransform_cameras (col : Collaborators) (s s1 : State) (j : Nat)
    (h : s.UpdateEyeTransform col = some s1)
    (hj : ∃ cam, s.cameras.get? j = some (some cam)) :
    ∃ cam, s1.cameras.get? j = some (some cam) := by
  simp only [State.UpdateEyeTransform, Option.bind_eq_bind, Option.bind_eq_some] at h
  obtain ⟨a, ha, b, hb, hc⟩ := h
  have h1 := onCamera_cameras _ _ _ j _ ha hj
  have h2 := onCamera_cameras _ _ _ j _ hb h1
  split at hc <;> cases hc <;> exact h2

/-- Both cameras exist in every state built by Create. -/
theorem Create_cameras (col : Collaborators) (aContext : Option Unit) (s : State)
    (h : Create col aContext = some s) :
    (∃ cam, s.cameras.get? 0 = some (some cam)) ∧
    (∃ cam, s.cameras.get? 1 = some (some cam)) := by
  simp only [Create, State.Initialize, Option.bind_eq_bind, Option.bind_eq_some] at h
  obtain ⟨_, _, a, ha, b, hb, hc⟩ := h
  cases hc
  have h0 : ∃ cam, (({ State.construct col aContext with
      cameras := (State.construct col aContext).cameras.set 0 (some col.CreateCamera) } :
        State).cameras.set 1 (some col.CreateCamera)).get? 0 = some (some cam) :=
    ⟨col.CreateCamera, rfl⟩
  have h1 : ∃ cam, (({ State.construct col aContext with
      cameras := (State.construct col aContext).cameras.set 0 (some col.CreateCamera) } :
        State).cameras.set 1 (some col.CreateCamera)).get? 1 = some (some cam) :=
    ⟨col.CreateCamera, rfl⟩
  exact ⟨UpdateEyeTransform_cameras col a b 0 hb (UpdatePerspective_cameras col _ a 0 ha h0),
    UpdateEyeTransform_cameras col a b 1 hb (UpdatePerspective_cameras col _ a 1 ha h1)⟩

/-- On a state built by Create, attaching a delegate and then running any sequence of
operations with valid arguments runs to the end. -/
theorem runOps_after_Create (col : Collaborators) (aContext : Option Unit) (s0 : State)
    (h : Create col aContext = some s0) (calls : List DelegateCall) (ops : List Op)
    (hv : ∀ op ∈ ops, op.valid = true) :
    ∃ s, runOps col s0 (Op.SetControllerDelegate (some calls) :: ops) = some s := by
  have hlen : s0.controllers.length = kMaxControllerCount := by
    rw [(Create_controllers col aContext s0 h).1]
    rfl
  obtain ⟨hc0, hc1⟩ := Create_cameras col aContext s0 h
  obtain ⟨a, ha, hra⟩ := SetControllerDelegate_ready col s0 calls hc0 hc1 hlen
  obtain ⟨r, hr, _⟩ := runOps_ready col ops a hra hv
  exact ⟨r, by simp [runOps, Op.apply, ha, hr]⟩

/-- C13: after Initialize and any sequence of the public device operations that runs, the
controller array has kMaxControllerCount = 2 slots, the controller of slot i has index i,
slot 0 is the right hand and slot 1 the left hand; so with a delegate attached a transition
of the connected state of slot 0 reports SetLeftHanded(0, false) and one of slot 1 reports
SetLeftHanded(1, true). Once a delegate is attached, every sequence of operations with
valid slot indices runs to its end. -/
theorem controller_slots_fixed_after_Initialize (col : Collaborators)
    (aContext : Option Unit) (s0 s : State) (ops : List Op)
    (hcreate : Create col aContext = some s0) (hrun : runOps col s0 ops = some s) :
    s.controllers.length = kMaxControllerCount ∧
    (∀ (i : Nat) (c : Controller), s.controllers[i]? = some c → c.index = (i : Int)) ∧
    (∃ c0 c1, s.controllers = [c0, c1] ∧ c0.hand = ElbowModel.HandEnum.Right ∧
      c1.hand = ElbowModel.HandEnum.Left) ∧
    (∀ calls c aConnected, s.controllerDelegate = some calls → s.slot 0 = some c →
      c.enabled ≠ aConnected →
      (UpdateControllerConnected s 0 aConnected).bind State.controllerDelegate =
        some (calls ++ [DelegateCall.SetLeftHanded 0 false,
          DelegateCall.SetEnabled 0 aConnected, DelegateCall.SetVisible 0 aConnected])) ∧
    (∀ calls c aConnected, s.controllerDelegate = some calls → s.slot 1 = some c →
      c.enabled ≠ aConnected →
      (UpdateControllerConnected s 1 aConnected).bind State.controllerDelegate =
        some (calls ++ [DelegateCall.SetLeftHanded 1 true,
          DelegateCall.SetEnabled 1 aConnected, DelegateCall.SetVisible 1 aConnected])) ∧
    (∀ (calls : List DelegateCall) (ops1 : List Op), (∀ op ∈ ops1, op.valid = true) →
      ∃ s1, runOps col s0 (Op.SetControllerDelegate (some calls) :: ops1) = some s1) := by
  have hkey : s.controllers.map Controller.slotKey =
      [(0, ElbowModel.HandEnum.Right), (1, ElbowModel.HandEnum.Left)] := by
    rw [runOps_slotKey col ops s0 s hrun, Create_slotKey col aContext s0 hcreate]
  obtain ⟨c0, c1, hctl, hi0, hh0, hi1, hh1⟩ := slots_of_slotKey s hkey
  refine ⟨by rw [hctl]; rfl, ?_, ⟨c0, c1, hctl, hh0, hh1⟩, ?_, ?_,
    fun calls ops1 hv => runOps_after_Create col aContext s0 hcreate calls ops1 hv⟩
  · intro i c hc
    rw [hctl] at hc
    match i, hc with
    | 0, hc =>
      simp at hc
      subst hc
      simpa using hi0
    | 1, hc =>
      simp at hc
      subst hc
      simpa using hi1
    | (n + 2), hc => simp at hc
  · intro calls c aConnected hd hslot hne
    have hc : c = c0 := by
      have h0 : s.slot 0 = some c0 := by simp [State.slot, hctl]
      rw [hslot] at h0
      exact Option.some.inj h0
    subst hc
    rw [UpdateControllerConnected_cases s 0 aConnected c hslot]
    simp [hne, hd, Controller.IsRightHand, hh0]
  · intro calls c aConnected hd hslot hne
    have hc : c = c1 := by
      have h1 : s.slot 1 = some c1 := by simp [State.slot, hctl]
      rw [hslot] at h1
      exact Option.some.inj h1
    subst hc
    rw [UpdateControllerConnected_cases s 1 aConnected c hslot]
    simp [hne, hd, Controller.IsRightHand, hh1]

/-- C13 at a concrete input: the sample session runs on the state built by Create, and at
its end the array still has two slots, with SetLeftHanded(0, false) and
SetLeftHanded(1, true) among the calls the delegate received. -/
theorem controller_slots_fixed_after_Initialize_witness :
    Create sampleCollaborators (some ()) = some sampleCreated ∧
    runOps sampleCollaborators sampleCreated sampleOps = some sampleAfterOps ∧
    sampleAfterOps.controllers.length = kMaxControllerCount ∧
    DelegateCall.SetLeftHanded 0 false ∈ sampleAfterOps.controllerDelegate.getD [] ∧
    DelegateCall.SetLeftHanded 1 true ∈ sampleAfterOps.controllerDelegate.getD [] :=
  ⟨Create_sample, runOps_sample,
   (controller_slots_fixed_after_Initialize sampleCollaborators (some ()) sampleCreated
      sampleAfterOps sampleOps Create_sample runOps_sample).1,
   by decide, by decide⟩

end DeviceDelegatePicoVR

end crow
